import Mathlib

set_option maxRecDepth 100000

/-
  Verification development for the mydb-streamlit record store.

  Shallow embedding of the query execution engine (database.py, queryParser.py,
  query.py, index.py, transaction.py) into Lean.

  Modelling conventions:
  * Python dicts are insertion-ordered association lists `List (String × α)`;
    assignment replaces the value of the first matching key in place,
    otherwise appends (matching CPython dict semantics for unique keys).
  * Python floats are modelled as exact rationals `Q`.  `float(s)` is
    modelled by `parseRat` which accepts the plain decimal forms
    `[+-]?digits[.digits]` actually exercised by this code base (no
    exponents, inf/nan or underscores).  `str(float)` is modelled by
    `pyFloatStr`, which prints the exact decimal expansion with trailing
    zeros stripped and at least one fractional digit; for short decimals this
    coincides with CPython's shortest-roundtrip repr (e.g. "30" -> "30.0").
  * Timestamps: `datetime.now().strftime("%Y-%m-%dT%H:%M:%S")` /
    `datetime.strptime` round-trip through an opaque second-resolution
    encoding; we model wall-clock time as a rational number of seconds and
    the rendered timestamp as the decimal string of its floor
    (`current_time`), parsed back by `parse_time` (String.toNat?).
  * GitHub persistence (save_to_file / load_collection_data /
    save_index_to_file) is an external collaborator; saving snapshots the
    in-memory data into `DB.storage` and lazy loading reads it back.
  * Exceptions are modelled with `Except Err`; the constructors mirror the
    exception classes of errors.py (plus `valueE` for raw Python
    ValueError/TypeError escaping uncaught).
-/

/-
  Exact rational arithmetic.  Mathlib's `Q` operations are opaque to the
  kernel (they go through `Nat.gcd`'s well-founded recursion), so we use an
  equivalent normalized fraction type whose operations reduce definitionally;
  every constructed value is in lowest terms with a positive denominator, so
  structural equality is numeric equality.  `Q` stands in for Python floats
  (exact for the decimal literals this code base manipulates).
-/

def gcdFuel : Nat → Nat → Nat → Nat
  | 0, _, n => n
  | _, 0, n => n
  | fuel + 1, m, n => gcdFuel fuel (n % m) m

def myGcd (m n : Nat) : Nat := gcdFuel (m + 1) m n

structure Q where
  num : Int
  den : Nat
deriving DecidableEq, Repr

def Q.mk' (n : Int) (d : Nat) : Q :=
  if d = 0 then ⟨0, 1⟩
  else
    let g := myGcd n.natAbs d
    ⟨n / (g : Int), d / g⟩

instance : OfNat Q n := ⟨⟨n, 1⟩⟩
instance : NatCast Q := ⟨fun n => ⟨n, 1⟩⟩
instance : IntCast Q := ⟨fun n => ⟨n, 1⟩⟩
instance : Neg Q := ⟨fun a => ⟨-a.num, a.den⟩⟩
instance : Add Q := ⟨fun a b => Q.mk' (a.num * b.den + b.num * a.den) (a.den * b.den)⟩
instance : Sub Q := ⟨fun a b => Q.mk' (a.num * b.den - b.num * a.den) (a.den * b.den)⟩
instance : Mul Q := ⟨fun a b => Q.mk' (a.num * b.num) (a.den * b.den)⟩

def Q.ble (a b : Q) : Bool := decide (a.num * (b.den : Int) ≤ b.num * (a.den : Int))
def Q.blt (a b : Q) : Bool := ! Q.ble b a
def Q.bge (a b : Q) : Bool := Q.ble b a
def Q.bgt (a b : Q) : Bool := Q.blt b a

instance : LE Q := ⟨fun a b => Q.ble a b = true⟩
instance : LT Q := ⟨fun a b => Q.blt a b = true⟩
instance (a b : Q) : Decidable (a ≤ b) := instDecidableEqBool _ _
instance (a b : Q) : Decidable (a < b) := instDecidableEqBool _ _

def Q.divNat (a : Q) (n : Nat) : Q := Q.mk' a.num (a.den * n)

def Q.floor (a : Q) : Int := a.num.fdiv a.den

instance exceptDecEq {ε α : Type} [DecidableEq ε] [DecidableEq α] :
    DecidableEq (Except ε α) := fun a b =>
  match a, b with
  | .ok x, .ok y =>
    if h : x = y then isTrue (congrArg Except.ok h)
    else isFalse (fun hc => h (Except.ok.inj hc))
  | .ok _, .error _ => isFalse (fun hc => Except.noConfusion hc)
  | .error _, .ok _ => isFalse (fun hc => Except.noConfusion hc)
  | .error x, .error y =>
    if h : x = y then isTrue (congrArg Except.error h)
    else isFalse (fun hc => h (Except.error.inj hc))

/-- Error taxonomy mirroring errors.py plus uncaught builtin errors. -/
inductive Err where
  | validation (msg : String)
  | query (msg : String)
  | collectionE (msg : String)
  | transactionE (msg : String)
  | indexE (msg : String)
  | valueE (msg : String)
deriving DecidableEq, Repr

/-- Value of a single operator argument inside an operator-object condition:
`$gt`/`$gte`/`$lt`/`$lte` carry numbers, `$in` carries a list of strings. -/
inductive OpArg where
  | num (q : Q)
  | strs (l : List String)
deriving DecidableEq, Repr

/-- A parsed condition value: a quoted string literal, a bare numeric literal
(Python float, which `match_query` treats as neither `str` nor `dict` and
therefore never tests), or an operator object (dict). -/
inductive CondVal where
  | str (s : String)
  | numv (q : Q)
  | ops (l : List (String × OpArg))
deriving DecidableEq, Repr

/-- Result-row cell values: strings, floats, ints, or Python None. -/
inductive Val where
  | s (v : String)
  | n (q : Q)
  | i (k : Int)
  | null
deriving DecidableEq, Repr

abbrev Rec := List (String × String)
abbrev Data := List (String × String)
abbrev Conds := List (String × CondVal)
abbrev Row := List (String × Val)

/-- Python `dict.get`: value of the first (unique) entry with the given key. -/
def dget {α : Type} : List (String × α) → String → Option α
  | [], _ => none
  | (k, v) :: t, key => if k = key then some v else dget t key

/-- Python `d[k] = v`: replace in place if present, else append. -/
def dset {α : Type} : List (String × α) → String → α → List (String × α)
  | [], key, v => [(key, v)]
  | (k, w) :: t, key, v => if k = key then (key, v) :: t else (k, w) :: dset t key v

/-- Python `k in d`. -/
def dmem {α : Type} (l : List (String × α)) (key : String) : Bool :=
  (dget l key).isSome

/-- Python `del d[k]` (first occurrence). -/
def derase {α : Type} : List (String × α) → String → List (String × α)
  | [], _ => []
  | (k, w) :: t, key => if k = key then t else (k, w) :: derase t key

def isPySpace (c : Char) : Bool :=
  c = ' ' || c = '\t' || c = '\n' || c = '\r' || c = Char.ofNat 11 || c = Char.ofNat 12

/-- Python `str.strip()` (whitespace). -/
def stripPy (s : String) : String :=
  String.mk (((s.data.dropWhile isPySpace).reverse.dropWhile isPySpace).reverse)

/-- Python `str.split(sep)` for a one-character separator. -/
def splitOnChar (c : Char) (s : String) : List String :=
  go [] s.data
where go : List Char → List Char → List String
  | acc, [] => [String.mk acc.reverse]
  | acc, d :: t =>
    if d = c then String.mk acc.reverse :: go [] t else go (d :: acc) t

def strLower (s : String) : String := String.mk (s.data.map Char.toLower)

/-- Lexicographic (code point) string comparison, Python's `<=` on str. -/
def charListLe : List Char → List Char → Bool
  | [], _ => true
  | _ :: _, [] => false
  | a :: t1, b :: t2 => if a = b then charListLe t1 t2 else decide (a < b)

def strLe (a b : String) : Bool := charListLe a.data b.data


def digitsVal : List Char → Nat
  | [] => 0
  | c :: t => digitsValAux (c.toNat - 48) t
where digitsValAux : Nat → List Char → Nat
  | acc, [] => acc
  | acc, c :: t => digitsValAux (acc * 10 + (c.toNat - 48)) t

def isDigitOrDot (c : Char) : Bool := c.isDigit || c = '.'

/-- Model of Python `float(s)` restricted to plain decimal literals
`[+-]?digits[.digits]` (with surrounding whitespace stripped), which is the
only numeric form this code base produces or consumes. -/
def parseRat (s : String) : Option Q :=
  let cs := (stripPy s).data
  let signed : Bool × List Char :=
    match cs with
    | c :: t => if c = '-' then (true, t) else if c = '+' then (false, t) else (false, cs)
    | [] => (false, cs)
  let negate := signed.1
  let body := signed.2
  let finish : Q → Option Q := fun v => some (if negate then -v else v)
  if body = [] then none
  else if ¬ body.all isDigitOrDot then none
  else
    let ipart := body.takeWhile (fun c => ¬ c = '.')
    let rest := body.dropWhile (fun c => ¬ c = '.')
    match rest with
    | [] => finish (digitsVal ipart : Q)
    | _ :: frac =>
      if frac.any (fun c => c = '.') then none
      else if ipart = [] ∧ frac = [] then none
      else finish ((digitsVal ipart : Q) + Q.mk' (digitsVal frac) (10 ^ frac.length))

def fracDigits : Nat → Q → List Nat
  | 0, _ => []
  | k + 1, f =>
    let f10 := f * 10
    let d := (Q.floor f10).toNat
    d :: fracDigits k (f10 - (d : Q))

def stripTrailingZeros (l : List Nat) : List Nat :=
  (l.reverse.dropWhile (fun d => d = 0)).reverse

/-- Model of Python `str(float)` for the short decimal values this code
produces: integer part, a dot, then the fractional digits with trailing
zeros removed (at least one digit, so `str(30.0) = "30.0"`). -/
def pyFloatStr (q : Q) : String :=
  let sgn := if q < 0 then "-" else ""
  let a := if q < 0 then -q else q
  let ip := (Q.floor a).toNat
  let ds := stripTrailingZeros (fracDigits 17 (a - (ip : Q)))
  let frac := if ds = [] then "0" else String.join (ds.map (fun d => toString d))
  sgn ++ toString ip ++ "." ++ frac

/-- Collection.current_time: wall-clock seconds rendered as a timestamp
string (second resolution, hence the floor). -/
def current_time (now : Q) : String := toString (Q.floor now)

/-- Collection.parse_time: parse the timestamp encoding back to seconds. -/
def parse_time (s : String) : Option Nat :=
  if ¬ s.data = [] ∧ s.data.all Char.isDigit then some (digitsVal s.data) else none

/-- Collection.is_expired: a record with both `ttl` and `created_at` is
expired once `now >= created_at + ttl`; malformed values raise
ValidationError; a record missing either field is never expired. -/
def is_expired (record : Rec) (now : Q) : Except Err Bool :=
  match dget record "ttl", dget record "created_at" with
  | some tv, some cv =>
    match parseRat tv with
    | none => .error (.validation "Invalid TTL or created_at in record")
    | some ttl =>
      match parse_time cv with
      | none => .error (.validation ("Invalid timestamp format: " ++ cv))
      | some created => .ok (Q.bge now ((created : Q) + ttl))
  | _, _ => .ok false

def opAllowed (op : String) : Bool :=
  op = "$gt" || op = "$gte" || op = "$lt" || op = "$lte" || op = "$in"

/-- One operator test inside an operator-object condition (the body of the
`for op, value in ops.items()` loop in Collection.match_query).
`recordValue` is the raw record string, `recordNum` its float coercion. -/
def opCheck (recordValue : String) (recordNum : Q) (op : String) (arg : OpArg) :
    Except Err Bool :=
  if ¬ opAllowed op then .error (.validation ("Invalid operator: " ++ op))
  else if op = "$in" then
    match arg with
    | .num _ => .error (.validation "$in operator requires a list")
    | .strs vs => .ok (decide (recordValue ∈ vs))
  else
    match arg with
    | .strs _ => .ok false   -- float(list) raises TypeError, caught -> False
    | .num v =>
      if op = "$gt" then .ok (Q.bgt recordNum v)
      else if op = "$gte" then .ok (Q.bge recordNum v)
      else if op = "$lt" then .ok (Q.blt recordNum v)
      else .ok (Q.ble recordNum v)

def opsCheck (recordValue : String) (recordNum : Q) :
    List (String × OpArg) → Except Err Bool
  | [] => .ok true
  | (op, arg) :: t => do
    let b ← opCheck recordValue recordNum op arg
    if b then opsCheck recordValue recordNum t else pure false

/-- One condition of Collection.match_query's main loop. -/
def condCheck (record : Rec) (key : String) (cv : CondVal) : Except Err Bool :=
  if stripPy key = "" then .error (.validation ("Invalid query field: " ++ key))
  else
    match dget record key with
    | none => .ok false
    | some rv =>
      match cv with
      | .str c => .ok (decide (stripPy rv = c))
      | .numv _ => .ok true   -- a float condition is neither str nor dict: no test
      | .ops l =>
        match parseRat (stripPy rv) with
        | none => .ok false
        | some rn => opsCheck rv rn l

def condsCheck (record : Rec) : Conds → Except Err Bool
  | [] => .ok true
  | (k, cv) :: t => do
    let b ← condCheck record k cv
    if b then condsCheck record t else pure false

/-- Collection.match_query: TTL check first (when requested), then every
condition must hold (conjunctive, evaluated in declaration order). -/
def match_query (record : Rec) (query : Conds) (check_ttl : Bool) (now : Q) :
    Except Err Bool := do
  if check_ttl then
    let e ← is_expired record now
    if e then pure false else condsCheck record query
  else condsCheck record query

def reservedField (f : String) : Bool :=
  f = "_id" || f = "created_at" || f = "updated_at"

def schemaMissingCheck (record : Data) : List String → Except Err Unit
  | [] => .ok ()
  | f :: t =>
    if ¬ dmem record f ∧ ¬ (f = "ttl" ∨ f = "updated_at") then
      .error (.validation ("Missing required field " ++ f ++ " in record"))
    else schemaMissingCheck record t

def schemaExtraCheck (schema : List String) : Data → Except Err Unit
  | [] => .ok ()
  | (f, v) :: t =>
    if ¬ f ∈ schema ∧ ¬ (f = "ttl" ∨ f = "updated_at") then
      .error (.validation ("Field " ++ f ++ " not in schema"))
    else if f = "age" ∧ parseRat v = none then
      .error (.validation ("Field " ++ f ++ " must be numeric, got " ++ v))
    else schemaExtraCheck schema t

/-- Collection.validate_record: rejects `_id`/`created_at` in the payload
(note: `updated_at` is NOT rejected), then enforces the optional schema and
numeric `age`. -/
def validate_record (schema : List String) (record : Data) : Except Err Unit :=
  if dmem record "_id" ∨ dmem record "created_at" then
    .error (.validation "Cannot set reserved fields: _id, created_at")
  else if schema = [] then .ok ()
  else do
    schemaMissingCheck record schema
    schemaExtraCheck schema record

abbrev Index := List (String × List String)
abbrev Indexes := List (String × Index)

def indexFieldsCheck : List String → Except Err Unit
  | [] => .ok ()
  | f :: t =>
    if stripPy f = "" then .error (.validation ("Invalid index field: " ++ f))
    else if reservedField f then
      .error (.validation ("Index field " ++ f ++ " is reserved"))
    else indexFieldsCheck t

/-- Adding an id to a composite key's id set (defaultdict(set).add).  Ids are
unique per scan so set insertion is an append when absent. -/
def indexAdd (idx : Index) (key : String) (id_ : String) : Index :=
  let cur := (dget idx key).getD []
  dset idx key (if id_ ∈ cur then cur else cur ++ [id_])

def buildIndexScan (fields : List String) : List (String × Rec) → Index → Index
  | [], idx => idx
  | (id_, record) :: t, idx =>
    if fields.all (fun f => dmem record f) then
      let key := String.intercalate "|" (fields.map (fun f => (dget record f).getD ""))
      buildIndexScan fields t (indexAdd idx key id_)
    else buildIndexScan fields t idx

/-- IndexManager.build_index: full rebuild of the index keyed by the joined
field tuple; records missing any indexed field are skipped.  The GitHub
persistence of the index (save_index_to_file) is external and not modelled. -/
def build_index (fields : List String) (data : List (String × Rec))
    (indexes : Indexes) : Except Err Indexes := do
  if fields = [] then .error (.validation "Index fields cannot be empty")
  else do
    indexFieldsCheck fields
    let idx := buildIndexScan fields data []
    pure (dset indexes (String.intercalate "," fields) idx)

def rebuildAllIndexes (data : List (String × Rec)) : Indexes → Indexes → Except Err Indexes
  | [], acc => .ok acc
  | (indexKey, _) :: t, acc => do
    let acc2 ← build_index (splitOnChar ',' indexKey) data acc
    rebuildAllIndexes data t acc2

/-- One collection's in-memory state (Collection.__init__). `data` is only
meaningful once `data_loaded` is true (Python keeps None before the lazy
load). -/
structure Collection where
  name : String
  schema : List String
  data : List (String × Rec)
  data_loaded : Bool
  indexes : Indexes
deriving DecidableEq, Repr

/-- The MyDB state visible to the core: collections, the query-result cache,
the debounce clock, and the persisted snapshot used by lazy loading
(standing in for the GitHub file). -/
structure DB where
  collections : List (String × Collection)
  cache : List (String × List Row)
  last_save_time : Q
  save_interval : Q
  storage : List (String × List (String × Rec))
deriving DecidableEq, Repr

def getColl (db : DB) (cname : String) : Except Err Collection :=
  match dget db.collections cname with
  | some c => .ok c
  | none => .error (.collectionE ("Collection " ++ cname ++ " not found"))

def putColl (db : DB) (cname : String) (c : Collection) : DB :=
  { db with collections := dset db.collections cname c }

/-- MyDB.save_to_file: serialize every collection's data (loading unloaded
ones from the existing snapshot) into the persisted snapshot. -/
def saveState (db : DB) : List (String × List (String × Rec)) :=
  db.collections.map (fun p =>
    (p.1, if p.2.data_loaded then p.2.data else (dget db.storage p.1).getD []))

/-- MyDB.debounce_save: at most one flush per interval; a flush persists the
state and clears the result cache. -/
def debounce_save (db : DB) (now : Q) : DB :=
  if now - db.last_save_time ≥ db.save_interval then
    { db with last_save_time := now, cache := [], storage := saveState db }
  else db

/-- Collection.load_data via MyDB.load_collection_data: lazily hydrate the
record map from the persisted snapshot (missing collection loads as empty). -/
def load_data (db : DB) (cname : String) : Except Err DB := do
  let c ← getColl db cname
  if c.data_loaded then pure db
  else pure (putColl db cname
    { c with data := (dget db.storage cname).getD [], data_loaded := true })

/-- The per-field stringious pass of Collection.insert: `age` goes through
`str(float(...))`, every other field through `str` (identity on strings). -/
def stringifyFields : Rec → Except Err Rec
  | [] => .ok []
  | (f, v) :: t =>
    if f = "age" then
      match parseRat v with
      | none => .error (.validation ("Field " ++ f ++ " must be numeric, got " ++ v))
      | some q => do
        let t2 ← stringifyFields t
        pure ((f, pyFloatStr q) :: t2)
    else do
      let t2 ← stringifyFields t
      pure ((f, v) :: t2)

/-- Collection.insert: validate, assign `_id` (record count + 1) and
`created_at`, stringify, store, rebuild every existing index, debounce-save.
Index build failures cannot occur in-model (persistence is external), so the
`del data[key]` compensation path is unreachable. -/
def insert (db : DB) (cname : String) (record : Data) (now : Q) :
    Except Err (DB × String) := do
  let db ← load_data db cname
  let c ← getColl db cname
  match validate_record c.schema record with
  | .error e =>
    .error (.validation ("Invalid record for insert: " ++
      (match e with | .validation m => m | _ => "")))
  | .ok _ => do
    let key := toString (c.data.length + 1)
    let r1 := dset (dset record "_id" key) "created_at" (current_time now)
    let r2 ← stringifyFields r1
    let data2 := dset c.data key r2
    let idxs ← rebuildAllIndexes data2 c.indexes c.indexes
    let db := putColl db cname { c with data := data2, indexes := idxs }
    pure (debounce_save db now, key)

/-- The inner field loop of Collection.update applied to one matched record:
validates/stringifies `update_data` (mutating it, so the result threads on),
merges it into the record and stamps `updated_at`. -/
def updateFields (record : Rec) (now : Q) :
    Data → Data → Except Err (Rec × Data)
  | ud, [] =>
    .ok (dset (ud.foldl (fun r p => dset r p.1 p.2) record) "updated_at" (current_time now), ud)
  | ud, (f, v) :: rest =>
    if f = "_id" ∨ f = "created_at" then
      .error (.validation ("Cannot update reserved field: " ++ f))
    else if f = "age" then
      match parseRat v with
      | none => .error (.validation ("Field " ++ f ++ " must be numeric, got " ++ v))
      | some q => updateFields record now (dset ud f (pyFloatStr q)) rest
    else updateFields record now (dset ud f v) rest

def updateScan (operations : Conds) (now : Q) :
    List (String × Rec) → Data → Except Err (List (String × Rec) × Data × Nat)
  | [], ud => .ok ([], ud, 0)
  | (k, r) :: t, ud => do
    let b ← match_query r operations true now
    if b then do
      let (r2, ud2) ← updateFields r now ud ud
      let (t2, ud3, n) ← updateScan operations now t ud2
      pure ((k, r2) :: t2, ud3, n + 1)
    else do
      let (t2, ud2, n) ← updateScan operations now t ud
      pure ((k, r) :: t2, ud2, n)

/-- Collection.update: scan all records in order, apply update_data to each
match (threading the in-place stringification of update_data), then rebuild
every index and debounce-save if anything changed. -/
def update (db : DB) (cname : String) (operations : Conds) (update_data : Data)
    (now : Q) : Except Err (DB × Nat) := do
  let db ← load_data db cname
  let c ← getColl db cname
  let (data2, _, count) ← updateScan operations now c.data update_data
  if count > 0 then do
    let idxs ← rebuildAllIndexes data2 c.indexes c.indexes
    let db := putColl db cname { c with data := data2, indexes := idxs }
    pure (debounce_save db now, count)
  else pure (putColl db cname { c with data := data2 }, count)

def collectMatches (query : Conds) (now : Q) :
    List (String × Rec) → Except Err (List String)
  | [] => .ok []
  | (k, r) :: t => do
    let b ← match_query r query true now
    let rest ← collectMatches query now t
    pure (if b then k :: rest else rest)

/-- Collection.delete: gather matching keys, delete them, rebuild indexes and
debounce-save when non-empty. -/
def delete (db : DB) (cname : String) (query : Conds) (now : Q) :
    Except Err (DB × Nat) := do
  let db ← load_data db cname
  let c ← getColl db cname
  let toDelete ← collectMatches query now c.data
  let data2 := toDelete.foldl (fun d k => derase d k) c.data
  if toDelete ≠ [] then do
    let idxs ← rebuildAllIndexes data2 c.indexes c.indexes
    let db := putColl db cname { c with data := data2, indexes := idxs }
    pure (debounce_save db now, toDelete.length)
  else pure (putColl db cname { c with data := data2 }, toDelete.length)

/-- Collection.create_index: validate the field tuple, load, build (replacing
any previous index under the same key) and debounce-save. -/
def create_index (db : DB) (cname : String) (fields : List String) (now : Q) :
    Except Err DB := do
  if fields = [] then .error (.validation "Index fields cannot be empty")
  else do
    reservedIndexCheck fields
    let db ← load_data db cname
    let c ← getColl db cname
    let idxs ← build_index fields c.data c.indexes
    let db := putColl db cname { c with indexes := idxs }
    pure (debounce_save db now)
where reservedIndexCheck : List String → Except Err Unit
  | [] => .ok ()
  | f :: t =>
    if reservedField f then .error (.validation ("Index field " ++ f ++ " is reserved"))
    else reservedIndexCheck t

def aggOpAllowed (op : String) : Bool :=
  op = "$count" || op = "$avg" || op = "$sum" || op = "$min" || op = "$max"

/-- Source field of an aggregate output column: strip the first recognized
prefix, else the column name itself. -/
def actualFieldOf (outputField : String) : String :=
  if outputField.data.take 4 = "avg_".data then String.mk (outputField.data.drop 4)
  else if outputField.data.take 4 = "sum_".data then String.mk (outputField.data.drop 4)
  else if outputField.data.take 4 = "min_".data then String.mk (outputField.data.drop 4)
  else if outputField.data.take 4 = "max_".data then String.mk (outputField.data.drop 4)
  else outputField

/-- The numeric-parseable subset of a group's values for one source field
(non-numeric and missing values are silently skipped). -/
def numericValues (records : List Rec) (field : String) : List Q :=
  records.filterMap (fun r =>
    match dget r field with
    | none => none
    | some v => parseRat (stripPy v))

def ratSum : List Q → Q
  | [] => 0
  | q :: t => q + ratSum t

def ratMinList : Q → List Q → Q
  | a, [] => a
  | a, q :: t => ratMinList (if Q.blt q a then q else a) t

def ratMaxList : Q → List Q → Q
  | a, [] => a
  | a, q :: t => ratMaxList (if Q.bgt q a then q else a) t

/-- One output column of Collection.aggregate_query (identical inline logic
in both the grouped and ungrouped branches). -/
def aggColumn (records : List Rec) (outputField op : String) : Except Err Val := do
  if ¬ aggOpAllowed op then
    .error (.validation ("Invalid aggregate operator: " ++ op))
  else
    let af := actualFieldOf outputField
    if reservedField af then
      .error (.validation ("Aggregate field " ++ af ++ " is reserved"))
    else
      let values := numericValues records af
      if op = "$count" then pure (.i records.length)
      else
        match values with
        | [] => pure (if op = "$avg" ∨ op = "$min" ∨ op = "$max" then .null else .i 0)
        | q :: t =>
          if op = "$avg" then pure (.n (Q.divNat (ratSum (q :: t)) (q :: t).length))
          else if op = "$sum" then pure (.n (ratSum (q :: t)))
          else if op = "$min" then pure (.n (ratMinList q t))
          else pure (.n (ratMaxList q t))

def aggOutputs (records : List Rec) : List (String × String) → Row → Except Err Row
  | [], row => .ok row
  | (f, op) :: t, row => do
    let v ← aggColumn records f op
    aggOutputs records t (dset row f v)

def filterMatching (conditions : Conds) (now : Q) :
    List (String × Rec) → Except Err (List Rec)
  | [] => .ok []
  | (_, r) :: t => do
    let b ← match_query r conditions true now
    let rest ← filterMatching conditions now t
    pure (if b then r :: rest else rest)

/-- Group partitioning of aggregate_query: insertion-ordered groups keyed by
the group-by field's raw value (missing value groups under "null"). -/
def buildGroups (conditions : Conds) (groupBy : String) (now : Q) :
    List (String × Rec) → List (String × List Rec) → Except Err (List (String × List Rec))
  | [], groups => .ok groups
  | (_, r) :: t, groups => do
    let b ← match_query r conditions true now
    if b then
      let gk := (dget r groupBy).getD "null"
      let cur := (dget groups gk).getD []
      buildGroups conditions groupBy now t (dset groups gk (cur ++ [r]))
    else buildGroups conditions groupBy now t groups

def groupRows (aggregate : List (String × String)) :
    List (String × List Rec) → Except Err (List Row)
  | [] => .ok []
  | (gk, records) :: t => do
    let row ← aggOutputs records aggregate [("group", .s gk)]
    let rest ← groupRows aggregate t
    pure (row :: rest)

/-- Sort key of aggregate_query's result sort: `x.get(field, 0) or 0`
(missing, None, 0, 0.0 and "" all collapse to integer 0). -/
def aggSortKey (row : Row) (field : String) : Val :=
  match dget row field with
  | none => .i 0
  | some v =>
    match v with
    | .null => .i 0
    | .i k => if k = 0 then .i 0 else .i k
    | .n q => if q = 0 then .i 0 else .n q
    | .s s => if s = "" then .i 0 else .s s

/-- Comparison of two sort keys as Python would order them: numbers with
numbers, strings with strings; a mixed pair raises TypeError. -/
def valLe (a b : Val) : Except Err Bool :=
  match a, b with
  | .i x, .i y => .ok (decide (x ≤ y))
  | .i x, .n y => .ok (Q.ble (x : Q) y)
  | .n x, .i y => .ok (Q.ble x (y : Q))
  | .n x, .n y => .ok (Q.ble x y)
  | .s x, .s y => .ok (strLe x y)
  | _, _ => .error (.valueE "unorderable types in sort")

def insertSorted (le : α → α → Except Err Bool) (x : α) :
    List α → Except Err (List α)
  | [] => .ok [x]
  | h :: t => do
    let b ← le h x
    if b then do
      let t2 ← insertSorted le x t
      pure (h :: t2)
    else pure (x :: h :: t)

/-- Stable sort (models CPython's stable list.sort given a total key order;
equal keys keep their original relative order). -/
def stableSort (le : α → α → Except Err Bool) : List α → Except Err (List α)
  | [] => .ok []
  | h :: t => do
    let t2 ← stableSort le t
    insertSorted le h t2

def sortAggResults (results : List Row) (field order : String) : Except Err (List Row) :=
  if reservedField field then
    .error (.validation ("Sort field " ++ field ++ " is reserved"))
  else if ¬ (order = "asc" ∨ order = "desc") then
    .error (.validation ("Invalid sort order: " ++ order))
  else
    let le := fun (x y : Row) =>
      if order = "desc" then
        -- reverse=True: descending, stable
        do
          let b ← valLe (aggSortKey y field) (aggSortKey x field)
          pure b
      else valLe (aggSortKey x field) (aggSortKey y field)
    stableSort le results

/-- Collection.aggregate_query. -/
def aggregate_query (db : DB) (cname : String) (aggregate : List (String × String))
    (conditions : Conds) (group_by : String) (sort : List (String × String))
    (now : Q) : Except Err (DB × List Row) := do
  if group_by ≠ "" ∧ reservedField group_by then
    .error (.validation ("Group by field " ++ group_by ++ " is reserved"))
  else do
    let db ← load_data db cname
    let c ← getColl db cname
    let results ←
      if group_by ≠ "" then do
        let groups ← buildGroups conditions group_by now c.data []
        groupRows aggregate groups
      else do
        let validRecords ← filterMatching conditions now c.data
        let row ← aggOutputs validRecords aggregate []
        pure [row]
    match sort with
    | [] => pure (db, results)
    | (field, order) :: _ => do
      let sorted ← sortAggResults results field order
      pure (db, sorted)

/-- Collection.join_query: nested-loop join; the left side is TTL-checked and
condition-matched, the right side TTL-checked only; a pair joins when
`record1.get(field1) == record2.get(field2)` under Python equality (two
missing fields compare equal as None == None); the merged row is the left
record overlaid with the right record's fields renamed to
`<otherCollection>_<field>`. -/
def join_query (db : DB) (cname : String) (join : List (String × String))
    (conditions : Conds) (now : Q) : Except Err (DB × List Row) := do
  let db ← load_data db cname
  let c ← getColl db cname
  let otherName := (dget join "collection").getD ""
  match dget db.collections otherName with
  | none => .error (.collectionE ("Collection " ++ otherName ++ " not found"))
  | some other => do
    let db ←
      if other.data_loaded then pure db
      else pure (putColl db otherName
        { other with data := (dget db.storage otherName).getD [], data_loaded := true })
    let other2 := (dget db.collections otherName).getD other
    match splitOnChar '=' ((dget join "on").getD "") with
    | [field1, field2] =>
      if reservedField field1 ∨ reservedField field2 then
        .error (.validation ("Join fields " ++ field1 ++ " or " ++ field2 ++ " are reserved"))
      else do
        let rows ← joinScan c.data other2.data otherName field1 field2 conditions now
        pure (db, rows.map (fun r => r.map (fun p => (p.1, Val.s p.2))))
    | _ => .error (.valueE "unpacking join on clause failed")
where
  mergeRight (r1 r2 : Rec) (otherName : String) : Rec :=
    r2.foldl (fun acc p => dset acc (otherName ++ "_" ++ p.1) p.2) r1
  joinInner (r1 : Rec) (otherName field1 field2 : String) (now : Q) :
      List (String × Rec) → Except Err (List Rec)
    | [] => .ok []
    | (_, r2) :: t => do
      let b ← match_query r2 [] true now
      let rest ← joinInner r1 otherName field1 field2 now t
      if b ∧ dget r1 field1 = dget r2 field2 then
        pure (mergeRight r1 r2 otherName :: rest)
      else pure rest
  joinScan (dataL dataR : List (String × Rec)) (otherName field1 field2 : String)
      (conditions : Conds) (now : Q) : Except Err (List Rec) :=
    match dataL with
    | [] => .ok []
    | (_, r1) :: t => do
      let b ← match_query r1 conditions true now
      let rows ← if b then joinInner r1 otherName field1 field2 now dataR else pure []
      let rest ← joinScan t dataR otherName field1 field2 conditions now
      pure (rows ++ rest)

/-- A buffered transaction operation (Transaction.operations entries). -/
inductive TOp where
  | ins (record : Data)
  | upd (condition : Conds) (update_data : Data)
  | del (condition : Conds)
deriving DecidableEq, Repr

/-- Transaction.__init__: snapshot of the owning collection's record map and
index map.  If the collection's data has not been lazily loaded yet
(`data_loaded` false, Python `data` is None), the captured snapshot is the
EMPTY map, not the records sitting in storage. -/
structure Transaction where
  original_data : List (String × Rec)
  original_indexes : Indexes
  operations : List TOp
deriving DecidableEq, Repr

def Transaction.make (c : Collection) : Transaction :=
  { original_data := if c.data_loaded then c.data else []
    original_indexes := c.indexes
    operations := [] }

/-- Transaction.insert: validate shape only, buffer the op. -/
def tx_insert (tx : Transaction) (record : Data) : Except Err Transaction :=
  if record = [] then .error (.validation "Insert record cannot be empty")
  else .ok { tx with operations := tx.operations ++ [.ins record] }

/-- Transaction.update: validate shape only, buffer the op. -/
def tx_update (tx : Transaction) (condition : Conds) (update_data : Data) :
    Except Err Transaction :=
  if condition = [] then .error (.validation "Update condition cannot be empty")
  else if update_data = [] then .error (.validation "Update data cannot be empty")
  else .ok { tx with operations := tx.operations ++ [.upd condition update_data] }

/-- Transaction.delete: validate shape only, buffer the op. -/
def tx_delete (tx : Transaction) (condition : Conds) : Except Err Transaction :=
  if condition = [] then .error (.validation "Delete condition cannot be empty")
  else .ok { tx with operations := tx.operations ++ [.del condition] }

/-- Transaction.rollback: restore the snapshot (record map and indexes) onto
the collection, then request persistence. -/
def tx_rollback (tx : Transaction) (db : DB) (cname : String) (now : Q) : DB :=
  match dget db.collections cname with
  | none => db
  | some c =>
    debounce_save
      (putColl db cname { c with data := tx.original_data, indexes := tx.original_indexes })
      now

def applyTOp (db : DB) (cname : String) (now : Q) : TOp → Except Err DB
  | .ins record => do
    let (db2, _) ← insert db cname record now
    pure db2
  | .upd condition update_data => do
    let (db2, _) ← update db cname condition update_data now
    pure db2
  | .del condition => do
    let (db2, _) ← delete db cname condition now
    pure db2

/-- Replay of the buffered ops, stopping at the first failure and returning
the partially mutated state together with the failure. -/
def replayOps (cname : String) (now : Q) : List TOp → DB → DB × Option Err
  | [], db => (db, none)
  | op :: t, db =>
    match applyTOp db cname now op with
    | .ok db2 => replayOps cname now t db2
    | .error e => (db, some e)

def errMsg : Err → String
  | .validation m => m
  | .query m => m
  | .collectionE m => m
  | .transactionE m => m
  | .indexE m => m
  | .valueE m => m

/-- Transaction.commit: replay the buffered ops in order through the normal
single-record entry points; on the first failure invoke rollback and report
a TransactionError; on success request persistence. -/
def tx_commit (tx : Transaction) (db : DB) (cname : String) (now : Q) :
    DB × Option Err :=
  match replayOps cname now tx.operations db with
  | (db2, none) => (debounce_save db2 now, none)
  | (db2, some e) =>
    (tx_rollback tx db2 cname now,
     some (.transactionE ("Transaction commit failed: " ++ errMsg e)))

/-
  Query parser (queryParser.py).  The Python regular expressions are
  hand-compiled: `\w+`/`\s*`/char-class scans are direct, `(.+)\)` (greedy)
  splits at the LAST closing parenthesis of the remaining text, `(.+?)\)`
  (lazy) at the first viable one, findall/finditer scan left to right
  advancing one character on failure, and keywords are matched
  case-insensitively (re.I).
-/

def isWordChar (c : Char) : Bool := c.isAlphanum || c = '_'

def skipSpaces (cs : List Char) : List Char := cs.dropWhile isPySpace

def takeWord (cs : List Char) : Option (List Char × List Char) :=
  let w := cs.takeWhile isWordChar
  if w = [] then none else some (w, cs.drop w.length)

def lowEq (a b : Char) : Bool := a.toLower = b.toLower

/-- Case-insensitive literal prefix match, returning the rest on success. -/
def caselessRest : List Char → List Char → Option (List Char)
  | [], s => some s
  | p :: pt, c :: st => if lowEq p c then caselessRest pt st else none
  | _ :: _, [] => none

/-- Split for a greedy `(.+)\)`: group is everything before the LAST `)` of
the text (non-empty), the rest is what follows that `)`. -/
def splitLastParen (cs : List Char) : Option (List Char × List Char) :=
  match cs.reverse.dropWhile (fun c => ¬ c = ')') with
  | ')' :: grev =>
    if grev = [] then none
    else some (grev.reverse, (cs.reverse.takeWhile (fun c => ¬ c = ')')).reverse)
  | _ => none

def qch : Char := Char.ofNat 39   -- apostrophe

/-- Match of `'[^']*'` at the head: the unquoted content and the rest. -/
def quotedTake (cs : List Char) : Option (List Char × List Char) :=
  match cs with
  | c :: t =>
    if c = qch then
      let content := t.takeWhile (fun d => ¬ d = qch)
      match t.drop content.length with
      | d :: rest => if d = qch then some (content, rest) else none
      | [] => none
    else none
  | [] => none

/-- Match of `[0-9.]+` at the head. -/
def numTake (cs : List Char) : Option (List Char × List Char) :=
  let w := cs.takeWhile isDigitOrDot
  if w = [] then none else some (w, cs.drop w.length)

/-- One match of `(\w+)=('[^']*'|[0-9.]+)` at the head, with the quoted
value already stripped of its quotes (the `v[1:-1]` step). -/
def pairAt (cs : List Char) : Option ((String × String) × List Char) := do
  let (w, r) ← takeWord cs
  match r with
  | c :: r2 =>
    if c = '=' then
      match quotedTake r2 with
      | some (content, rest) => some ((String.mk w, String.mk content), rest)
      | none => do
        let (d, rest) ← numTake r2
        some ((String.mk w, String.mk d), rest)
    else none
  | [] => none

def findPairsAux : Nat → List Char → List (String × String)
  | 0, _ => []
  | _, [] => []
  | fuel + 1, cs =>
    match pairAt cs with
    | some (p, rest) => p :: findPairsAux fuel rest
    | none => findPairsAux fuel cs.tail

/-- `re.findall(r"(\w+)=('[^']*'|[0-9.]+)", s)` with quote stripping. -/
def findPairs (cs : List Char) : List (String × String) :=
  findPairsAux cs.length cs

def pairsToDict (l : List (String × String)) : Data :=
  l.foldl (fun d p => dset d p.1 p.2) []

def isFilterOpChar (c : Char) : Bool := c = '=' || c = '>' || c = '<' || c = '!'

/-- Filter value as parsed by parse_filter. -/
inductive FVal where
  | str (s : String)
  | num (q : Q)
deriving DecidableEq, Repr

structure Filt where
  ftype : String
  field : String
  operator : String
  value : FVal
deriving DecidableEq, Repr

/-- parse_filter: `re.match(r"(\w+)\s*([=><!]+)\s*('[^']*'|[0-9.]+)", text)`,
reserved-field check, then quote stripping or float conversion (a numeric
token float() cannot parse raises an uncaught ValueError). -/
def parse_filter (text : String) : Except Err Filt :=
  let fail : Except Err Filt := .error (.query ("Invalid filter syntax: " ++ text))
  match takeWord text.data with
  | none => fail
  | some (w, r1) =>
    let r1s := skipSpaces r1
    let opw := r1s.takeWhile isFilterOpChar
    if opw = [] then fail
    else
      let r2 := skipSpaces (r1s.drop opw.length)
      let fieldS := String.mk w
      let mkVal : FVal → Except Err Filt := fun v =>
        .ok { ftype := "compare", field := fieldS, operator := String.mk opw, value := v }
      match quotedTake r2 with
      | some (content, _) =>
        if reservedField fieldS then
          .error (.validation ("Field " ++ fieldS ++ " is reserved and cannot be used in filter"))
        else mkVal (.str (String.mk content))
      | none =>
        match numTake r2 with
        | some (d, _) =>
          if reservedField fieldS then
            .error (.validation ("Field " ++ fieldS ++ " is reserved and cannot be used in filter"))
          else
            match parseRat (String.mk d) with
            | some q => mkVal (.num q)
            | none => .error (.valueE ("could not convert string to float: " ++ String.mk d))
        | none => fail

def obr : Char := Char.ofNat 123   -- opening brace
def cbr : Char := Char.ofNat 125   -- closing brace

/-- Raw value token of one parse_conditions match. -/
inductive RawCv where
  | q (s : String)
  | d (s : String)
  | br (s : String)
deriving DecidableEq, Repr

def opTake (cs : List Char) : Option (List Char × List Char) :=
  let o := cs.takeWhile isFilterOpChar
  if ¬ o = [] then some (o, cs.drop o.length)
  else
    match cs with
    | c :: t =>
      if c = '$' then (takeWord t).map (fun p => ('$' :: p.1, p.2)) else none
    | [] => none

def condValTake (cs : List Char) : Option (RawCv × List Char) :=
  match quotedTake cs with
  | some (content, rest) => some (.q (String.mk content), rest)
  | none =>
    match numTake cs with
    | some (d, rest) => some (.d (String.mk d), rest)
    | none =>
      match cs with
      | c :: t =>
        if c = obr then
          let content := t.takeWhile (fun d => ¬ d = obr ∧ ¬ d = cbr)
          match t.drop content.length with
          | d :: rest => if d = cbr then some (.br (String.mk content), rest) else none
          | [] => none
        else none
      | [] => none

/-- One match of `(\w+)\s*([=><!]+|[$]\w+)\s*('[^']*'|[0-9.]+|\{[^{}]*\})`. -/
def condAt (cs : List Char) : Option ((String × String × RawCv) × List Char) := do
  let (w, r1) ← takeWord cs
  let r1s := skipSpaces r1
  let (op, r2) ← opTake r1s
  let r2s := skipSpaces r2
  let (v, r3) ← condValTake r2s
  some ((String.mk w, String.mk op, v), r3)

def findCondsAux : Nat → List Char → List (String × String × RawCv)
  | 0, _ => []
  | _, [] => []
  | fuel + 1, cs =>
    match condAt cs with
    | some (m, rest) => m :: findCondsAux fuel rest
    | none => findCondsAux fuel cs.tail

/-- First match of the inner operator pattern
`(\w+)\s*:\s*([0-9.]+|\[[^\]]*\])` inside a brace value.  Note `\w+` cannot
match a dollar sign, so the captured operator key never carries the `$`. -/
def innerOpAt (cs : List Char) : Option String := do
  let (w, r1) ← takeWord cs
  let r1s := skipSpaces r1
  match r1s with
  | c :: r2 =>
    if c = ':' then
      let r2s := skipSpaces r2
      match numTake r2s with
      | some _ => some (String.mk w)
      | none =>
        match r2s with
        | d :: t =>
          if d = '[' then
            let content := t.takeWhile (fun e => ¬ e = ']')
            match t.drop content.length with
            | e :: _ => if e = ']' then some (String.mk w) else none
            | [] => none
          else none
        | [] => none
    else none
  | [] => none

def innerFirstOp : Nat → List Char → Option String
  | 0, _ => none
  | _, [] => none
  | fuel + 1, cs =>
    match innerOpAt cs with
    | some k => some k
    | none => innerFirstOp fuel cs.tail

def condsOfMatches : List (String × String × RawCv) → Conds → Except Err Conds
  | [], acc => .ok acc
  | (k, _, v) :: t, acc =>
    if reservedField k then
      .error (.validation ("Field " ++ k ++ " is reserved and cannot be used in conditions"))
    else
      match v with
      | .q s => condsOfMatches t (dset acc k (.str s))
      | .br inner =>
        match innerFirstOp inner.data.length inner.data with
        | some opk => .error (.validation ("Invalid operator: " ++ opk))
        | none => condsOfMatches t (dset acc k (.ops []))
      | .d s =>
        match parseRat s with
        | some q2 => condsOfMatches t (dset acc k (.numv q2))
        | none => condsOfMatches t (dset acc k (.str s))

/-- parse_conditions of queryParser.py. -/
def parse_conditions (text : String) : Except Err Conds :=
  condsOfMatches (findCondsAux text.data.length text.data) []

inductive QAction where
  | INSERT | SELECT | UPDATE | DELETE | INDEX | TRANSACT | AGGREGATE | JOIN
deriving DecidableEq, Repr

/-- The typed query intent (query.py Query). -/
structure Query where
  action : Option QAction := none
  conditions : Conds := []
  data : Data := []
  index_field : String := ""
  transact_ops : List (String × Conds × Data) := []
  filter : Option Filt := none
  aggregate : List (String × String) := []
  group_by : String := ""
  sort : List (String × String) := []
  join : List (String × String) := []
deriving DecidableEq, Repr

def dataKeysValidate : Data → Except Err Unit
  | [] => .ok ()
  | (k, _) :: t =>
    if stripPy k = "" then .error (.validation ("Invalid field name: " ++ k))
    else dataKeysValidate t

def opsValidate : List (String × OpArg) → Except Err Unit
  | [] => .ok ()
  | (op, val) :: t =>
    if ¬ opAllowed op then .error (.validation ("Invalid operator: " ++ op))
    else if op = "$in" then
      match val with
      | .strs _ => opsValidate t
      | .num _ => .error (.validation "$in operator requires a list")
    else
      match val with
      | .num _ => opsValidate t
      | .strs _ => .error (.validation ("Operator " ++ op ++ " requires numeric value"))

def condsValidate : Conds → Except Err Unit
  | [] => .ok ()
  | (k, v) :: t =>
    if stripPy k = "" then .error (.validation ("Invalid condition field: " ++ k))
    else
      match v with
      | .ops l => do
        opsValidate l
        condsValidate t
      | _ => condsValidate t

def aggValidate : List (String × String) → Except Err Unit
  | [] => .ok ()
  | (_, op) :: t =>
    if ¬ aggOpAllowed op then .error (.validation ("Invalid aggregate operator: " ++ op))
    else aggValidate t

/-- Query.validate of query.py. -/
def Query.validate (q : Query) : Except Err Unit := do
  match q.action with
  | none => .error (.query "Query action must be specified")
  | some act => do
    if act = .INDEX ∧ q.index_field = "" then
      .error (.validation "Index field cannot be empty")
    else pure ()
    if act = .INSERT ∨ act = .UPDATE then
      if q.data = [] then
        .error (.validation "Data cannot be empty for INSERT or UPDATE")
      else dataKeysValidate q.data
    else pure ()
    condsValidate q.conditions
    if act = .AGGREGATE then do
      if q.aggregate = [] then .error (.validation "Aggregate operations cannot be empty")
      else aggValidate q.aggregate
    else pure ()
    if act = .JOIN then
      if (dget q.join "collection").getD "" = "" ∨ (dget q.join "on").getD "" = "" then
        .error (.validation "Join requires collection and on clause")
      else if ¬ ((dget q.join "on").getD "").data.any (fun c => c = '=') then
        .error (.validation "Join on clause must contain =")
      else pure ()
    else pure ()

/-- One match of `(\w+)=([$]\w+)` (aggregate spec pairs). -/
def aggPairAt (cs : List Char) : Option ((String × String) × List Char) := do
  let (w, r1) ← takeWord cs
  match r1 with
  | c :: r2 =>
    if c = '=' then
      match r2 with
      | d :: r3 =>
        if d = '$' then do
          let (w2, r4) ← takeWord r3
          some ((String.mk w, String.mk ('$' :: w2)), r4)
        else none
      | [] => none
    else none
  | [] => none

def findAggAux : Nat → List Char → List (String × String)
  | 0, _ => []
  | _, [] => []
  | fuel + 1, cs =>
    match aggPairAt cs with
    | some (p, rest) => p :: findAggAux fuel rest
    | none => findAggAux fuel cs.tail

/-- Lazy `(.+?)\)(?:;|$)`: content up to the first `)` that is followed by a
`;` (consumed) or the end of the text; the content is non-empty and may
itself contain unqualified `)` characters. -/
def lazyParenSemiAux : Nat → List Char → List Char → Option (List Char × List Char)
  | 0, _, _ => none
  | _ + 1, _, [] => none
  | fuel + 1, acc, c :: t =>
    if c = ')' ∧ ¬ acc = [] then
      match t with
      | [] => some (acc.reverse, [])
      | d :: rest =>
        if d = ';' then some (acc.reverse, rest)
        else lazyParenSemiAux fuel (c :: acc) t
    else lazyParenSemiAux fuel (c :: acc) t

def lazyParenSemi (cs : List Char) : Option (List Char × List Char) :=
  lazyParenSemiAux cs.length [] cs

/-- First case-insensitive occurrence of a literal, split into
(before, after); used for the `\) WITH \(` separator. -/
def splitFirstCaseless : Nat → List Char → List Char → List Char →
    Option (List Char × List Char)
  | 0, _, _, _ => none
  | fuel + 1, pat, acc, cs =>
    match caselessRest pat cs with
    | some rest => some (acc.reverse, rest)
    | none =>
      match cs with
      | [] => none
      | c :: t => splitFirstCaseless fuel pat (c :: acc) t

/-- All case-insensitive occurrence splits of a literal, left to right
(for the greedy backtracking of `MODIFY FILTER \((.+)\) WITH \((.+)\)`). -/
def allOccs : Nat → List Char → List Char → List Char → List (List Char × List Char)
  | 0, _, _, _ => []
  | fuel + 1, pat, acc, cs =>
    (match caselessRest pat cs with
     | some rest => [(acc.reverse, rest)]
     | none => []) ++
    (match cs with
     | [] => []
     | c :: t => allOccs fuel pat (c :: acc) t)

/-- Greedy split `\((.+)\) WITH \((.+)\)` after the opening paren: the first
group is maximal among the occurrences of `) WITH (` whose remainder still
contains a closing paren with non-empty content. -/
def splitModifyGroups (cs : List Char) : Option (List Char × List Char) :=
  let cands := (allOccs cs.length ") WITH (".data [] cs).filterMap
    (fun p => if ¬ p.1 = [] then (splitLastParen p.2).map (fun s => (p.1, s.1)) else none)
  cands.getLast?

/-- One raw TRANSACT sub-operation match. -/
inductive TRaw where
  | addOp (g1 : String)
  | modOp (g2 g3 : String)
  | remOp (g4 : String)
deriving DecidableEq, Repr

/-- The alternation of the inner TRANSACT pattern tried at one position:
`ADD DATA \((.+?)\)`, `MODIFY FILTER \((.+?)\) WITH \((.+?)\)` or
`REMOVE FILTER \((.+?)\)`, each terminated by `(?:;|$)`. -/
def transactOpAt (cs : List Char) : Option (TRaw × List Char) :=
  match (caselessRest "ADD DATA (".data cs).bind lazyParenSemi with
  | some (g1, rest) => some (.addOp (String.mk g1), rest)
  | none =>
    match caselessRest "MODIFY FILTER (".data cs with
    | some r =>
      match splitFirstCaseless r.length ") WITH (".data [] r with
      | some (g2, r2) =>
        if g2 = [] then none
        else
          (lazyParenSemi r2).map (fun p => (.modOp (String.mk g2) (String.mk p.1), p.2))
      | none => none
    | none =>
      match (caselessRest "REMOVE FILTER (".data cs).bind lazyParenSemi with
      | some (g4, rest) => some (.remOp (String.mk g4), rest)
      | none => none

def transactScan : Nat → List Char → List TRaw
  | 0, _ => []
  | _, [] => []
  | fuel + 1, cs =>
    match transactOpAt cs with
    | some (op, rest) => op :: transactScan fuel rest
    | none => transactScan fuel cs.tail

def processTransactOps : List TRaw → Except Err (List (String × Conds × Data))
  | [] => .ok []
  | .addOp g1 :: t => do
    let data := pairsToDict (findPairs g1.data)
    if data = [] then .error (.validation "Transaction insert data cannot be empty")
    else do
      let rest ← processTransactOps t
      pure (("INSERT", ([] : Conds), data) :: rest)
  | .modOp g2 g3 :: t => do
    let conditions ← parse_conditions g2
    let data := pairsToDict (findPairs g3.data)
    if conditions = [] ∨ data = [] then
      .error (.validation "Transaction update requires non-empty conditions and data")
    else do
      let rest ← processTransactOps t
      pure (("UPDATE", conditions, data) :: rest)
  | .remOp g4 :: t => do
    let conditions ← parse_conditions g4
    if conditions = [] then
      .error (.validation "Transaction delete conditions cannot be empty")
    else do
      let rest ← processTransactOps t
      pure (("DELETE", conditions, ([] : Data)) :: rest)

def indexFieldOk (f : String) : Bool :=
  1 ≤ f.length ∧ f.length ≤ 50 ∧ f.data.all isWordChar

def indexFieldsValidate : List String → Except Err Unit
  | [] => .ok ()
  | f :: t =>
    if ¬ indexFieldOk f then .error (.validation ("Invalid index field: " ++ f))
    else if reservedField f then
      .error (.validation ("Index field " ++ f ++ " is reserved"))
    else indexFieldsValidate t

/-- parse_my_query of queryParser.py: dispatch over the eight recognized
statement forms (tried in source order), building and validating a Query. -/
def parse_my_query (query : String) : Except Err Query := do
  if query = "" then .error (.validation "Query must be a non-empty string")
  else
    let qs := stripPy query
    let cs := qs.data
    let finish : Query → Except Err Query := fun q => do
      q.validate
      pure q
    match (caselessRest "ADD DATA (".data cs).bind splitLastParen with
    | some (g1, _) =>
      let data := pairsToDict (findPairs g1)
      if data = [] then .error (.validation "Insert data cannot be empty")
      else finish { action := some .INSERT, data := data }
    | none =>
    match caselessRest "FETCH".data cs with
    | some r =>
      match (caselessRest " FILTER (".data r).bind splitLastParen with
      | some (g1, _) => do
        let f ← parse_filter (String.mk g1)
        let conditions ← parse_conditions (String.mk g1)
        finish { action := some .SELECT, filter := some f, conditions := conditions }
      | none => finish { action := some .SELECT }
    | none =>
    match (caselessRest "MODIFY FILTER (".data cs).bind splitModifyGroups with
    | some (g1, g2) => do
      let conditions ← parse_conditions (String.mk g1)
      let data := pairsToDict (findPairs g2)
      if data = [] then .error (.validation "Update data cannot be empty")
      else finish { action := some .UPDATE, conditions := conditions, data := data }
    | none =>
    match (caselessRest "REMOVE FILTER (".data cs).bind splitLastParen with
    | some (g1, _) => do
      let conditions ← parse_conditions (String.mk g1)
      if conditions = [] then .error (.validation "Delete conditions cannot be empty")
      else finish { action := some .DELETE, conditions := conditions }
    | none =>
    match caselessRest "INDEX FIELD ".data cs with
    | some r =>
      let w := r.takeWhile (fun c => isWordChar c || c = ',')
      if w = [] then .error (.query ("Invalid query syntax: " ++ qs))
      else do
        let indexField := String.mk w
        indexFieldsValidate (splitOnChar ',' indexField)
        finish { action := some .INDEX, index_field := indexField }
    | none =>
    match (caselessRest "TRANSACT OPS (".data cs).bind splitLastParen with
    | some (g1, _) => do
      let ops ← processTransactOps (transactScan g1.length g1)
      finish { action := some .TRANSACT, transact_ops := ops }
    | none =>
    match (caselessRest "AGGREGATE (".data cs).bind splitLastParen with
    | some (g1, rest) => do
      let aggregate := (findAggAux g1.length g1).foldl (fun d p => dset d p.1 p.2) []
      if aggregate = [] then .error (.validation "Aggregate operations cannot be empty")
      else do
        -- optional FILTER group (group 2): its closing paren would have been
        -- the last paren, so with the greedy first group it can only match
        -- when the query text contains a later `)`; after the split it never
        -- does, hence conditions stay empty for every AGGREGATE query.
        let filterSplit := (caselessRest " FILTER (".data rest).bind splitLastParen
        let condsTxt := filterSplit.map (fun p => String.mk p.1)
        let rest2 := (filterSplit.map (fun p => p.2)).getD rest
        let groupSplit :=
          (caselessRest " GROUP BY ".data rest2).bind takeWord
        let groupBy := (groupSplit.map (fun p => String.mk p.1))
        let rest3 := (groupSplit.map (fun p => p.2)).getD rest2
        let sortPair : Option (String × String) :=
          match (caselessRest " SORT BY ".data rest3).bind takeWord with
          | some (w1, r2) =>
            (match r2 with
             | c :: r3 =>
               if c = ':' then
                 (takeWord r3).map (fun p => (String.mk w1, String.mk p.1))
               else none
             | [] => none)
          | none => none
        let conditions ← match condsTxt with
          | some txt => parse_conditions txt
          | none => pure []
        let groupName ← match groupBy with
          | some g =>
            if reservedField g then
              .error (.validation ("Group by field " ++ g ++ " is reserved"))
            else pure g
          | none => pure ""
        let sortSpec ← match sortPair with
          | some (f, o) =>
            if reservedField f then
              .error (.validation ("Sort field " ++ f ++ " is reserved"))
            else
              let ol := strLower o
              if ¬ (ol = "asc" ∨ ol = "desc") then
                .error (.validation ("Invalid sort order: " ++ o))
              else pure [(f, ol)]
          | none => pure ([] : List (String × String))
        finish { action := some .AGGREGATE, aggregate := aggregate,
                 conditions := conditions, group_by := groupName, sort := sortSpec }
    | none =>
    match (caselessRest "JOIN ".data cs).bind takeWord with
    | some (w1, r1) =>
      (match (caselessRest " ON ".data r1).bind takeWord with
       | some (w2, r2) =>
         (match r2 with
          | c :: r3 =>
            if c = '=' then
              match takeWord r3 with
              | some (w3, r4) => do
                let coll := String.mk w1
                let f1 := String.mk w2
                let f2 := String.mk w3
                if reservedField coll then
                  .error (.validation ("Join collection " ++ coll ++ " is reserved"))
                else if reservedField f1 ∨ reservedField f2 then
                  .error (.validation ("Join fields " ++ f1 ++ " or " ++ f2 ++ " are reserved"))
                else do
                  let conditions ←
                    match (caselessRest " FILTER (".data r4).bind splitLastParen with
                    | some (g4, _) => parse_conditions (String.mk g4)
                    | none => pure ([] : Conds)
                  finish { action := some .JOIN,
                           join := [("collection", coll), ("on", f1 ++ "=" ++ f2)],
                           conditions := conditions }
              | none => .error (.query ("Invalid query syntax: " ++ qs))
            else .error (.query ("Invalid query syntax: " ++ qs))
          | [] => .error (.query ("Invalid query syntax: " ++ qs)))
       | none => .error (.query ("Invalid query syntax: " ++ qs)))
    | none => .error (.query ("Invalid query syntax: " ++ qs))

def recToRow (r : Rec) : Row := r.map (fun p => (p.1, Val.s p.2))

/-- Python `str(...)` of a parsed condition value (used to build the
composite index key in parse_query; parse_conditions only ever produces
strings, floats and the empty operator dict). -/
def condValPyStr (cv : CondVal) : String :=
  match cv with
  | .str s => s
  | .numv q => pyFloatStr q
  | .ops _ => "\x7b\x7d"

def insertStr (x : String) : List String → List String
  | [] => [x]
  | h :: t => if strLe h x then h :: insertStr x t else x :: h :: t

/-- Python `sorted` on strings (code-point lexicographic). -/
def sortStrs : List String → List String
  | [] => []
  | h :: t => insertStr h (sortStrs t)

/-- Index-assisted lookup loop of parse_query's SELECT branch: each looked-up
id is resolved and, when present and non-empty, still passed through
match_query before being returned. -/
def lookupIds (data : List (String × Rec)) (conditions : Conds) (now : Q) :
    List String → Except Err (List Rec)
  | [] => .ok []
  | id_ :: t => do
    let rest ← lookupIds data conditions now t
    match dget data id_ with
    | none => pure rest
    | some r =>
      if r = [] then pure rest
      else do
        let b ← match_query r conditions true now
        pure (if b then r :: rest else rest)

def scanAll (conditions : Conds) (now : Q) :
    List (String × Rec) → Except Err (List Rec)
  | [] => .ok []
  | (_, r) :: t =>
    match match_query r conditions true now with
    | .error e => .error (.query ("Select query failed: " ++ errMsg e))
    | .ok b => do
      let rest ← scanAll conditions now t
      pure (if b then r :: rest else rest)

def fullScanSelect (db : DB) (cname : String) (conditions : Conds) (now : Q) :
    Except Err (DB × List Rec) := do
  let db ← load_data db cname
  let c ← getColl db cname
  let rows ← scanAll conditions now c.data
  pure (db, rows)

/-- The SELECT branch of Collection.parse_query up to (not including) the
sort step: try the composite index (all-equality multi-condition) or the
single-field equality index, else fall back to the full scan.  A numeric
filter value can never be found among the (string) keys of an index. -/
def select_exec (db : DB) (cname : String) (q : Query) (now : Q) :
    Except Err (DB × List Rec) := do
  match q.filter with
  | none => fullScanSelect db cname q.conditions now
  | some f =>
    if f.ftype = "compare" then
      if q.conditions.length > 1 then do
        let condFields := sortStrs (q.conditions.map (fun p => p.1))
        let indexKey := String.intercalate "," condFields
        let c0 ← getColl db cname
        match dget c0.indexes indexKey with
        | none => fullScanSelect db cname q.conditions now
        | some idx =>
          let compositeValue := String.intercalate "|"
            (condFields.map (fun fld => condValPyStr ((dget q.conditions fld).getD (.str ""))))
          match dget idx compositeValue with
          | none => fullScanSelect db cname q.conditions now
          | some ids => do
            let db ← load_data db cname
            let c ← getColl db cname
            let rows ← lookupIds c.data q.conditions now ids
            pure (db, rows)
      else do
        let c0 ← getColl db cname
        match dget c0.indexes f.field with
        | none => fullScanSelect db cname q.conditions now
        | some idx =>
          if f.operator = "=" then
            match f.value with
            | .num _ => fullScanSelect db cname q.conditions now
            | .str s =>
              match dget idx s with
              | none => fullScanSelect db cname q.conditions now
              | some ids => do
                let db ← load_data db cname
                let c ← getColl db cname
                let rows ← lookupIds c.data q.conditions now ids
                pure (db, rows)
          else fullScanSelect db cname q.conditions now
    else fullScanSelect db cname q.conditions now

def removeFirstDot : List Char → List Char
  | [] => []
  | c :: t => if c = '.' then t else c :: removeFirstDot t

/-- The `str(x).replace('.', '', 1).isdigit()` test of the SELECT sort key. -/
def pyDigitLike (s : String) : Bool :=
  let w := removeFirstDot s.data
  ¬ w = [] ∧ w.all Char.isDigit

/-- Sort key of the SELECT sort lambda: numeric-looking values (and the
integer default 0 for missing fields) sort as numbers, everything else as
the raw string. -/
def selKey (r : Rec) (field : String) : Val :=
  match dget r field with
  | none => .n 0
  | some v => if pyDigitLike v then .n ((parseRat v).getD 0) else .s v

def sortSelect (rows : List Rec) (field order : String) : Except Err (List Rec) :=
  let le := fun (x y : Rec) =>
    if order = "desc" then valLe (selKey y field) (selKey x field)
    else valLe (selKey x field) (selKey y field)
  match stableSort le rows with
  | .ok sorted => .ok sorted
  | .error e => .error (.query ("Sort operation failed: " ++ errMsg e))

def bufferOps : Transaction → List (String × Conds × Data) → Except Err Transaction
  | tx, [] => .ok tx
  | tx, (opType, conditions, data) :: t =>
    if opType = "INSERT" then do
      let tx2 ← tx_insert tx data
      bufferOps tx2 t
    else if opType = "UPDATE" then do
      let tx2 ← tx_update tx conditions data
      bufferOps tx2 t
    else if opType = "DELETE" then do
      let tx2 ← tx_delete tx conditions
      bufferOps tx2 t
    else bufferOps tx t

/-- The body of Collection.parse_query past the cache check: parse, dispatch
on the action, cache the results.  Execution-layer
ValidationError/IndexError/CollectionError failures are wrapped into
QueryError as in the source; raised errors leave no observable result
state. -/
def parse_query_run (db : DB) (cname : String) (query_str : String) (now : Q) :
    Except Err (DB × List Row) := do
      let queryKey := cname ++ ":" ++ query_str
      let q ← match parse_my_query query_str with
        | .error (.query m) => .error (.query ("Failed to parse query: " ++ m))
        | .error e => .error e
        | .ok q => pure q
      let (db2, results) ←
        match q.action with
        | some .INSERT =>
          (match insert db cname q.data now with
           | .error (.validation m) => .error (.query ("Insert query failed: " ++ m))
           | .error (.indexE m) => .error (.query ("Insert query failed: " ++ m))
           | .error e => .error e
           | .ok (db2, key) =>
             .ok (db2, [q.data.foldl (fun row p => dset row p.1 (Val.s p.2))
                          [("_id", Val.s key)]]))
        | some .SELECT => do
          let (db2, recs) ← select_exec db cname q now
          let sorted ← match q.sort with
            | [] => pure recs
            | (field, order) :: _ => sortSelect recs field order
          pure (db2, sorted.map recToRow)
        | some .UPDATE =>
          (match update db cname q.conditions q.data now with
           | .error (.validation m) => .error (.query ("Update query failed: " ++ m))
           | .error (.indexE m) => .error (.query ("Update query failed: " ++ m))
           | .error e => .error e
           | .ok (db2, count) => .ok (db2, [[("updated", Val.i count)]]))
        | some .DELETE =>
          (match delete db cname q.conditions now with
           | .error (.validation m) => .error (.query ("Delete query failed: " ++ m))
           | .error (.indexE m) => .error (.query ("Delete query failed: " ++ m))
           | .error e => .error e
           | .ok (db2, count) => .ok (db2, [[("deleted", Val.i count)]]))
        | some .INDEX =>
          let fields := splitOnChar ',' q.index_field
          (match create_index db cname fields now with
           | .error (.validation m) => .error (.query ("Index query failed: " ++ m))
           | .error (.indexE m) => .error (.query ("Index query failed: " ++ m))
           | .error e => .error e
           | .ok db2 => .ok (db2, [[("indexed", Val.s (String.intercalate "," fields))]]))
        | some .TRANSACT => do
          let c ← getColl db cname
          let tx ← bufferOps (Transaction.make c) q.transact_ops
          match tx_commit tx db cname now with
          | (db2, none) => pure (db2, [[("transaction", Val.s "committed")]])
          | (db2, some e) =>
            -- the TransactionError is caught, rollback runs a second time,
            -- then a QueryError is raised (the rolled-back state is only
            -- observable through the exception path, which Except elides)
            let _ := tx_rollback tx db2 cname now
            .error (.query ("Transaction query failed: " ++ errMsg e))
        | some .AGGREGATE =>
          (match aggregate_query db cname q.aggregate q.conditions q.group_by q.sort now with
           | .error (.validation m) => .error (.query ("Aggregate query failed: " ++ m))
           | .error e => .error e
           | .ok p => .ok p)
        | some .JOIN =>
          (match join_query db cname q.join q.conditions now with
           | .error (.validation m) => .error (.query ("Join query failed: " ++ m))
           | .error (.collectionE m) => .error (.query ("Join query failed: " ++ m))
           | .error e => .error e
           | .ok p => .ok p)
        | none => .ok (db, [])   -- unreachable: Query.validate requires an action
      pure ({ db2 with cache := dset db2.cache queryKey results }, results)

/-- Collection.parse_query: the leading cache lookup (a hit returns the
memoized result list and touches nothing), then the parse/dispatch body. -/
def parse_query (db : DB) (cname : String) (query_str : String) (now : Q) :
    Except Err (DB × List Row) :=
  if stripPy query_str = "" then .error (.validation "Query string must be non-empty")
  else
    match dget db.cache (cname ++ ":" ++ query_str) with
    | some rs => .ok (db, rs)
    | none => parse_query_run db cname query_str now

/-
  Helper lemmas about the dict model.
-/

theorem dget_dset_self {α : Type} (l : List (String × α)) (k : String) (v : α) :
    dget (dset l k v) k = some v := by
  induction l with
  | nil => simp [dset, dget]
  | cons h t ih =>
    by_cases hk : h.1 = k
    · simp [dset, hk, dget]
    · simp [dset, hk, dget, ih]

theorem dget_dset_ne {α : Type} (l : List (String × α)) (k k2 : String) (v : α)
    (h : ¬ k = k2) : dget (dset l k v) k2 = dget l k2 := by
  induction l with
  | nil => simp [dset, dget, h]
  | cons p t ih =>
    by_cases hk : p.1 = k
    · simp [dset, hk, dget, h, Ne.symm h]
    · simp [dset, hk, dget, ih]

theorem mem_keys_dset {α : Type} (l : List (String × α)) (k a : String) (v : α)
    (h : a ∈ (dset l k v).map Prod.fst) : a = k ∨ a ∈ l.map Prod.fst := by
  induction l with
  | nil =>
    simp only [dset, List.map, List.mem_singleton] at h
    exact Or.inl h
  | cons p t ih =>
    rcases p with ⟨k2, w⟩
    simp only [dset] at h
    by_cases hk : k2 = k
    · rw [if_pos hk] at h
      simp only [List.map, List.mem_cons] at h
      rcases h with h | h
      · exact Or.inl h
      · exact Or.inr (by simp [h])
    · rw [if_neg hk] at h
      simp only [List.map, List.mem_cons] at h
      rcases h with h | h
      · exact Or.inr (by simp [h])
      · rcases ih h with h2 | h2
        · exact Or.inl h2
        · exact Or.inr (by simp [h2])

/-- C4: TTL expiry dominates matching.  For a record carrying well-formed
`created_at = T0` and `ttl = S`, match_query with checkTtl is false at every
evaluation time at or after `T0 + S` regardless of the conditions, and, for
the empty condition set, true at every evaluation time strictly before
`T0 + S`. -/
theorem C4_ttl_expiry_dominates
    (record : Rec) (tstr cstr : String) (S : Q) (T0 : Nat)
    (ht : dget record "ttl" = some tstr) (hts : parseRat tstr = some S)
    (hc : dget record "created_at" = some cstr) (hcs : parse_time cstr = some T0) :
    (∀ (conds : Conds) (now : Q), (T0 : Q) + S ≤ now →
        match_query record conds true now = .ok false)
    ∧ (∀ now : Q, now < (T0 : Q) + S →
        match_query record [] true now = .ok true) := by
  constructor
  · intro conds now h
    have hb : Q.bge now ((T0 : Q) + S) = true := h
    simp only [match_query, is_expired, ht, hts, hc, hcs, if_true, hb]
    rfl
  · intro now h
    have hb : Q.bge now ((T0 : Q) + S) = false := by
      have h2 : (! Q.ble ((T0 : Q) + S) now) = true := h
      simpa using h2
    simp only [match_query, is_expired, ht, hts, hc, hcs, if_true, hb]
    rfl

/-- Concrete instantiation of C4: record with created_at 100 and ttl 10 is
unmatched at time 120 under arbitrary conditions and matched (with empty
conditions) at time 105. -/
theorem C4_witness :
    match_query [("ttl", "10"), ("created_at", "100")]
        [("missing", CondVal.str "whatever")] true 120 = .ok false
    ∧ match_query [("ttl", "10"), ("created_at", "100")] [] true 105 = .ok true := by
  have h := C4_ttl_expiry_dominates [("ttl", "10"), ("created_at", "100")]
    "10" "100" 10 100 (by decide) (by decide) (by decide) (by decide)
  exact ⟨h.1 [("missing", CondVal.str "whatever")] 120 (by decide),
         h.2 105 (by decide)⟩

theorem except_bind_ok {ε α β : Type} (a : α) (f : α → Except ε β) :
    (Except.ok a >>= f : Except ε β) = f a := rfl

theorem except_bind_error {ε α β : Type} (e : ε) (f : α → Except ε β) :
    ((Except.error e : Except ε α) >>= f : Except ε β) = .error e := rfl

theorem except_pure_bind {ε α β : Type} (a : α) (f : α → Except ε β) :
    ((pure a : Except ε α) >>= f : Except ε β) = f a := rfl

theorem condsCheck_append (record : Rec) (c1 c2 : Conds) (b1 b2 : Bool)
    (h1 : condsCheck record c1 = .ok b1) (h2 : condsCheck record c2 = .ok b2) :
    condsCheck record (c1 ++ c2) = .ok (b1 && b2) := by
  induction c1 generalizing b1 with
  | nil =>
    simp only [condsCheck] at h1
    cases h1
    simpa using h2
  | cons p t ih =>
    rcases p with ⟨k, cv⟩
    cases hc : condCheck record k cv with
    | error e =>
      simp only [condsCheck, hc, except_bind_error] at h1
      cases h1
    | ok b =>
      cases b with
      | false =>
        simp only [condsCheck, hc, except_bind_ok, if_neg, Bool.false_eq_true,
          reduceIte] at h1
        cases h1
        simp only [List.cons_append, condsCheck, hc, except_bind_ok,
          Bool.false_eq_true, reduceIte, Bool.false_and]
        rfl
      | true =>
        simp only [condsCheck, hc, except_bind_ok, reduceIte] at h1
        have := ih b1 h1
        simp only [List.cons_append, condsCheck, hc, except_bind_ok, reduceIte]
        exact this

theorem opsCheck_all (rv : String) (rn : Q) (l : List (String × OpArg))
    (h : opsCheck rv rn l = .ok true) :
    ∀ p ∈ l, opCheck rv rn p.1 p.2 = .ok true := by
  induction l with
  | nil => intro p hp; cases hp
  | cons p t ih =>
    intro p2 hp2
    cases hc : opCheck rv rn p.1 p.2 with
    | error e =>
      simp only [opsCheck, hc, except_bind_error] at h
      cases h
    | ok b =>
      cases b with
      | false =>
        simp only [opsCheck, hc, except_bind_ok, Bool.false_eq_true, reduceIte] at h
        simp only [pure, Except.pure] at h
        cases h
      | true =>
        simp only [opsCheck, hc, except_bind_ok, reduceIte] at h
        rcases List.mem_cons.mp hp2 with h2 | h2
        · subst h2; exact hc
        · exact ih h p2 h2

/-- C7: condition matching is conjunctive.  For disjoint condition sets the
match of the union (modelled as the ordered dict union, i.e. concatenation)
is the conjunction of the individual matches, and an operator-object
condition holds only if every listed operator test holds. -/
theorem C7_conjunctive_matching :
    (∀ (record : Rec) (c1 c2 : Conds) (check_ttl : Bool) (now : Q) (b1 b2 : Bool),
        (∀ k, k ∈ c1.map Prod.fst → ¬ k ∈ c2.map Prod.fst) →
        match_query record c1 check_ttl now = .ok b1 →
        match_query record c2 check_ttl now = .ok b2 →
        match_query record (c1 ++ c2) check_ttl now = .ok (b1 && b2))
    ∧ (∀ (record : Rec) (k : String) (l : List (String × OpArg))
          (check_ttl : Bool) (now : Q),
        match_query record [(k, CondVal.ops l)] check_ttl now = .ok true →
        ∃ rv rn, dget record k = some rv ∧ parseRat (stripPy rv) = some rn ∧
          ∀ p ∈ l, opCheck rv rn p.1 p.2 = .ok true) := by
  constructor
  · intro record c1 c2 check_ttl now b1 b2 _ h1 h2
    cases check_ttl with
    | false =>
      simp only [match_query, Bool.false_eq_true, reduceIte] at h1 h2 ⊢
      exact condsCheck_append record c1 c2 b1 b2 h1 h2
    | true =>
      simp only [match_query, reduceIte] at h1 h2 ⊢
      cases hexp : is_expired record now with
      | error e =>
        rw [hexp, except_bind_error] at h1
        cases h1
      | ok e =>
        rw [hexp, except_bind_ok] at h1 h2
        rw [except_bind_ok]
        cases e with
        | true =>
          simp only [reduceIte] at h1 h2 ⊢
          simp only [pure, Except.pure] at h1 h2
          cases h1
          cases h2
          rfl
        | false =>
          simp only [Bool.false_eq_true, reduceIte] at h1 h2 ⊢
          exact condsCheck_append record c1 c2 b1 b2 h1 h2
  · intro record k l check_ttl now h
    have hcond : condsCheck record [(k, CondVal.ops l)] = .ok true := by
      cases check_ttl with
      | false =>
        simpa only [match_query, Bool.false_eq_true, reduceIte] using h
      | true =>
        simp only [match_query, reduceIte] at h
        cases hexp : is_expired record now with
        | error e => rw [hexp, except_bind_error] at h; cases h
        | ok e =>
          rw [hexp, except_bind_ok] at h
          cases e with
          | true =>
            simp only [reduceIte, pure, Except.pure] at h
            cases h
          | false =>
            simpa only [Bool.false_eq_true, reduceIte] using h
    cases hc : condCheck record k (CondVal.ops l) with
    | error e =>
      simp only [condsCheck, hc, except_bind_error] at hcond
      cases hcond
    | ok b =>
      simp only [condsCheck, hc, except_bind_ok] at hcond
      cases b with
      | false =>
        simp only [Bool.false_eq_true, reduceIte, pure, Except.pure] at hcond
        cases hcond
      | true =>
        -- condCheck itself returned true: unfold it
        by_cases hkey : stripPy k = ""
        · simp only [condCheck, hkey, reduceIte] at hc
          cases hc
        · cases hrv : dget record k with
          | none =>
            simp only [condCheck, hkey, reduceIte, hrv] at hc
            cases hc
          | some rv =>
            cases hrn : parseRat (stripPy rv) with
            | none =>
              simp only [condCheck, hkey, reduceIte, hrv, hrn] at hc
              cases hc
            | some rn =>
              simp only [condCheck, hkey, reduceIte, hrv, hrn] at hc
              exact ⟨rv, rn, rfl, hrn, opsCheck_all rv rn l hc⟩

/-- Concrete instantiation of C7: both conjuncts applied at explicit
records and condition sets. -/
theorem C7_witness :
    match_query [("a", "1"), ("b", "x")]
        [("a", CondVal.str "1"), ("b", CondVal.str "y")] true 0 = .ok false
    ∧ ∃ rv rn, dget [("a", "2")] "a" = some rv ∧ parseRat (stripPy rv) = some rn ∧
        ∀ p ∈ [("$gte", OpArg.num 1)], opCheck rv rn p.1 p.2 = .ok true := by
  constructor
  · exact C7_conjunctive_matching.1 [("a", "1"), ("b", "x")]
      [("a", CondVal.str "1")] [("b", CondVal.str "y")] true 0 true false
      (by decide) (by decide) (by decide)
  · exact C7_conjunctive_matching.2 [("a", "2")] "a" [("$gte", OpArg.num 1)]
      true 0 (by decide)

/-- C9 (implicit): a result-cache hit suppresses execution entirely, for
mutation queries as much as reads — parse_query returns the memoized result
list and the whole database state (record maps, indexes, cache, persistence
clock) unchanged, so an identical ADD DATA resubmitted before the next cache
clear performs no second insert. -/
theorem C9_cache_hit_suppresses_execution
    (db : DB) (cname query_str : String) (now : Q) (rs : List Row)
    (hne : ¬ stripPy query_str = "")
    (hhit : dget db.cache (cname ++ ":" ++ query_str) = some rs) :
    parse_query db cname query_str now = .ok (db, rs) := by
  simp only [parse_query, hne, reduceIte, hhit]

def c9wRec : Rec := [("name", "X"), ("_id", "1"), ("created_at", "10")]

def c9wRow : Row := [("_id", .s "1"), ("name", .s "X")]

def c9wColl : Collection :=
  { name := "c", schema := [], data := [("1", c9wRec)], data_loaded := true, indexes := [] }

/-- The database state as it stands right after a first execution of
`ADD DATA (name='X')` on an empty collection (result cached). -/
def c9wDb : DB :=
  { collections := [("c", c9wColl)]
    cache := [("c:ADD DATA (name='X')", [c9wRow])]
    last_save_time := 10
    save_interval := 1
    storage := [("c", [("1", c9wRec)])] }

/-- Concrete instantiation of C9: resubmitting the identical ADD DATA query
returns the cached insert result and leaves the state untouched (the record
map still holds exactly one record). -/
theorem C9_witness :
    parse_query c9wDb "c" "ADD DATA (name='X')" 20 = .ok (c9wDb, [c9wRow]) :=
  C9_cache_hit_suppresses_execution c9wDb "c" "ADD DATA (name='X')" 20 [c9wRow]
    (by decide) (by decide)

def c10wRecB : Rec := [("name", "B"), ("_id", "1"), ("created_at", "0")]

def c10wColl : Collection :=
  { name := "c", schema := [], data := [], data_loaded := false, indexes := [] }

def c10wDb : DB :=
  { collections := [("c", c10wColl)], cache := [], last_save_time := 0,
    save_interval := 1, storage := [("c", [("1", c10wRecB)])] }

/-- Transaction opened on the not-yet-loaded collection: snapshot is empty;
the buffered insert succeeds on replay (lazily loading record B first), the
buffered delete fails (whitespace condition key), forcing rollback. -/
def c10wTx : Transaction :=
  { (Transaction.make c10wColl) with
    operations := [TOp.ins [("name", "A")], TOp.del [(" ", CondVal.str "x")]] }

theorem debounce_save_collections (db : DB) (now : Q) :
    (debounce_save db now).collections = db.collections := by
  simp only [debounce_save]
  split <;> rfl

/-- C10 (implicit): a Transaction constructed before the collection's lazy
load captures the EMPTY map as its snapshot, so rollback replaces the record
map with the empty map — discarding the records that were in storage and
those loaded/inserted during the failed commit, instead of restoring the
pre-transaction records. -/
theorem C10_unloaded_snapshot_empty :
    (∀ c : Collection, c.data_loaded = false → (Transaction.make c).original_data = [])
    ∧ (∀ (tx : Transaction) (db : DB) (cname : String) (now : Q) (c : Collection),
        tx.original_data = [] →
        dget db.collections cname = some c →
        ∃ c2, dget (tx_rollback tx db cname now).collections cname = some c2 ∧
          c2.data = [])
    ∧ ((dget ((tx_commit c10wTx c10wDb "c" 5).1).collections "c").map Collection.data
         = some []
       ∧ dget c10wDb.storage "c" = some [("1", c10wRecB)]
       ∧ ¬ (tx_commit c10wTx c10wDb "c" 5).2 = none) := by
  refine ⟨?_, ?_, by decide, by decide, by decide⟩
  · intro c h
    simp [Transaction.make, h]
  · intro tx db cname now c h1 h2
    refine ⟨{ c with data := tx.original_data, indexes := tx.original_indexes },
      ?_, h1⟩
    simp only [tx_rollback, h2, debounce_save_collections, putColl]
    exact dget_dset_self _ _ _

/-- Concrete instantiation of C10: rolling back the transaction opened on
the unloaded collection leaves the collection's record map empty. -/
theorem C10_witness :
    ∃ c2, dget (tx_rollback c10wTx c10wDb "c" 7).collections "c" = some c2 ∧
      c2.data = [] :=
  C10_unloaded_snapshot_empty.2.1 c10wTx c10wDb "c" 7 c10wColl (by decide) (by decide)

/-- C3 counterexample: parse_my_query accepts an insert payload whose key is
the reserved field `created_at` — the INSERT Query is returned with the
reserved key in its data, so reserved payload keys are NOT rejected at parse
time. -/
theorem C3_counterexample :
    parse_my_query "ADD DATA (created_at='x')" =
      .ok { action := some .INSERT, data := [("created_at", "x")] } := by
  decide

theorem condsOfMatches_reserved
    (ms : List (String × String × RawCv)) (acc res : Conds)
    (hacc : ∀ k ∈ acc.map Prod.fst, reservedField k = false)
    (h : condsOfMatches ms acc = .ok res) :
    ∀ k ∈ res.map Prod.fst, reservedField k = false := by
  induction ms generalizing acc with
  | nil =>
    simp only [condsOfMatches] at h
    cases h
    exact hacc
  | cons m t ih =>
    rcases m with ⟨k2, op, v⟩
    by_cases hres : reservedField k2 = true
    · simp only [condsOfMatches, hres, reduceIte] at h
      cases h
    · have hres2 : reservedField k2 = false := by
        cases hb : reservedField k2
        · rfl
        · exact absurd hb hres
      have hstep : ∀ cv : CondVal,
          (∀ k ∈ (dset acc k2 cv).map Prod.fst, reservedField k = false) := by
        intro cv k hk
        rcases mem_keys_dset acc k2 k cv hk with h2 | h2
        · subst h2; exact hres2
        · exact hacc k h2
      simp only [condsOfMatches, hres2, Bool.false_eq_true, reduceIte] at h
      cases v with
      | q s =>
        change condsOfMatches t (dset acc k2 (CondVal.str s)) = Except.ok res at h
        exact ih (dset acc k2 (.str s)) (hstep _) h
      | br inner =>
        change (match innerFirstOp inner.data.length inner.data with
          | some opk => Except.error (Err.validation ("Invalid operator: " ++ opk))
          | none => condsOfMatches t (dset acc k2 (CondVal.ops []))) = Except.ok res at h
        cases hio : innerFirstOp inner.data.length inner.data with
        | some opk => rw [hio] at h; cases h
        | none =>
          rw [hio] at h
          exact ih (dset acc k2 (.ops [])) (hstep _) h
      | d s =>
        change (match parseRat s with
          | some q2 => condsOfMatches t (dset acc k2 (CondVal.numv q2))
          | none => condsOfMatches t (dset acc k2 (CondVal.str s))) = Except.ok res at h
        cases hps : parseRat s with
        | some q2 =>
          rw [hps] at h
          exact ih (dset acc k2 (.numv q2)) (hstep _) h
        | none =>
          rw [hps] at h
          exact ih (dset acc k2 (.str s)) (hstep _) h

/-- C3 amended: reserved fields ARE rejected at parse time when used as
condition fields (parse_conditions never returns a condition set containing
a reserved key), but insert/update payload keys are not checked at parse
time; instead `_id`/`created_at` payload keys are rejected at execution time
(validate_record), while `updated_at` payload keys are accepted outright. -/
theorem C3_amended_reserved_fields :
    (∀ (s : String) (res : Conds), parse_conditions s = .ok res →
        ∀ k ∈ res.map Prod.fst, reservedField k = false)
    ∧ (∀ (schema : List String) (record : Data),
        (dmem record "_id" = true ∨ dmem record "created_at" = true) →
        validate_record schema record =
          .error (.validation "Cannot set reserved fields: _id, created_at"))
    ∧ validate_record [] [("updated_at", "x"), ("name", "y")] = .ok () := by
  refine ⟨?_, ?_, by decide⟩
  · intro s res h
    exact condsOfMatches_reserved _ [] res (by intro k hk; cases hk) h
  · intro schema record h
    simp only [validate_record]
    rw [if_pos h]

/-- Concrete instantiation of C3 (amended): a parsed condition field is not
reserved, and an execution-time insert payload carrying `_id` is rejected. -/
theorem C3_witness :
    reservedField "grade" = false
    ∧ validate_record [] [("_id", "9")] =
        .error (.validation "Cannot set reserved fields: _id, created_at") := by
  constructor
  · exact C3_amended_reserved_fields.1 "grade='Z'" [("grade", CondVal.str "Z")]
      (by decide) "grade" (by decide)
  · exact C3_amended_reserved_fields.2.1 [] [("_id", "9")] (Or.inl (by decide))

theorem replayOps_append (cname : String) (now : Q) (ops1 ops2 : List TOp)
    (db db2 : DB) (h : replayOps cname now ops1 db = (db2, none)) :
    replayOps cname now (ops1 ++ ops2) db = replayOps cname now ops2 db2 := by
  induction ops1 generalizing db with
  | nil =>
    simp only [replayOps] at h
    cases h
    simp [replayOps]
  | cons op t ih =>
    simp only [List.cons_append, replayOps] at h ⊢
    cases happ : applyTOp db cname now op with
    | ok dbx =>
      rw [happ] at h
      exact ih dbx h
    | error e =>
      rw [happ] at h
      cases h

def c1wRecB : Rec := [("name", "B"), ("_id", "1"), ("created_at", "0")]

def c1wColl : Collection :=
  { name := "c", schema := [], data := [("1", c1wRecB)], data_loaded := true,
    indexes := [] }

def c1wDb : DB :=
  { collections := [("c", c1wColl)], cache := [], last_save_time := 0,
    save_interval := 1, storage := [] }

/-- The engineered op sequence of the atomicity scenario: insert A, update
matching A, then a delete whose condition key is whitespace-only, which
match_query rejects with a ValidationError on replay. -/
def c1wOps : List TOp :=
  [TOp.ins [("name", "A")],
   TOp.upd [("name", CondVal.str "A")] [("name", "A2")],
   TOp.del [(" ", CondVal.str "x")]]

def c1wTx : Transaction :=
  { original_data := c1wColl.data, original_indexes := [], operations := c1wOps }

/-- The partially mutated state right before the failing third op. -/
def c1wReplayDb : DB := (replayOps "c" 5 (c1wOps.take 2) c1wDb).1

/-- C1: transaction atomicity.  (i) If a buffered op fails during replay,
commit stops at that op — the ops after it are never attempted, the reported
error is a TransactionError naming the cause, and the resulting state is the
rollback of the partial state; (ii) rollback restores the snapshot record
map and indexes onto the collection; (iii) in the engineered scenario
[insert A, update matching A, delete failing validation] the collection's
record map after commit() equals its pre-transaction state exactly (A is
not present). -/
theorem C1_transaction_atomicity :
    (∀ (tx : Transaction) (db db2 : DB) (cname : String) (now : Q)
        (ops1 ops2 : List TOp) (op : TOp) (e : Err),
        tx.operations = ops1 ++ op :: ops2 →
        replayOps cname now ops1 db = (db2, none) →
        applyTOp db2 cname now op = .error e →
        tx_commit tx db cname now =
          (tx_rollback tx db2 cname now,
           some (.transactionE ("Transaction commit failed: " ++ errMsg e))))
    ∧ (∀ (tx : Transaction) (db : DB) (cname : String) (now : Q) (c : Collection),
        dget db.collections cname = some c →
        ∃ c2, dget (tx_rollback tx db cname now).collections cname = some c2 ∧
          c2.data = tx.original_data ∧ c2.indexes = tx.original_indexes)
    ∧ ((dget ((tx_commit c1wTx c1wDb "c" 5).1).collections "c").map Collection.data
         = some [("1", c1wRecB)]
       ∧ (tx_commit c1wTx c1wDb "c" 5).2 =
           some (.transactionE "Transaction commit failed: Invalid query field:  ")) := by
  refine ⟨?_, ?_, by decide, by decide⟩
  · intro tx db db2 cname now ops1 ops2 op e hops h1 h2
    simp only [tx_commit, hops]
    rw [replayOps_append cname now ops1 (op :: ops2) db db2 h1]
    simp only [replayOps, h2]
  · intro tx db cname now c h2
    refine ⟨{ c with data := tx.original_data, indexes := tx.original_indexes },
      ?_, rfl, rfl⟩
    simp only [tx_rollback, h2, debounce_save_collections, putColl]
    exact dget_dset_self _ _ _

/-- Concrete instantiation of C1: commit of the engineered three-op sequence
aborts at the failing delete and yields the rollback of the partial state
with a TransactionError. -/
theorem C1_witness :
    tx_commit c1wTx c1wDb "c" 5 =
      (tx_rollback c1wTx c1wReplayDb "c" 5,
       some (.transactionE ("Transaction commit failed: " ++
         errMsg (.validation "Invalid query field:  ")))) :=
  C1_transaction_atomicity.1 c1wTx c1wDb c1wReplayDb "c" 5 (c1wOps.take 2) []
    (TOp.del [(" ", CondVal.str "x")]) (.validation "Invalid query field:  ")
    (by decide) (by decide) (by decide)

def c5Coll : Collection :=
  { name := "c", schema := [], data := [], data_loaded := true, indexes := [] }

def c5Db0 : DB :=
  { collections := [("c", c5Coll)], cache := [], last_save_time := 0,
    save_interval := 1, storage := [] }

/-- State after executing `ADD DATA (name='John', age=30)` on the empty
collection at time 100. -/
def c5Db1 : DB :=
  match parse_query c5Db0 "c" "ADD DATA (name='John', age=30)" 100 with
  | .ok p => p.1
  | .error _ => c5Db0

/-- The row a plain FETCH returns after that insert (note `age` was stored
as "30.0": insert pushes age through `str(float(...))`). -/
def c5Row : Row :=
  [("name", .s "John"), ("age", .s "30.0"), ("_id", .s "1"), ("created_at", .s "100")]

/-- C5 counterexample: the scenario's FETCH cannot return any row — the
query `FETCH FILTER (age={$gte:18})` fails at parse with a QueryError,
because parse_filter's value grammar accepts only quoted strings and
numeric literals, never an operator object. -/
theorem C5_counterexample :
    parse_query c5Db1 "c" "FETCH FILTER (age=\x7b$gte:18\x7d)" 101 =
      .error (.query "Failed to parse query: Invalid filter syntax: age=\x7b$gte:18\x7d") := by
  decide

/-- C5 amended: after `ADD DATA (name='John', age=30)` on an empty
collection, the operator-object FETCH errors (see the counterexample), and a
FETCH that does execute (plain `FETCH`) returns exactly one row carrying
`_id` = "1", name = 'John', age = '30.0' (not '30'), a set created_at, and
no updated_at field. -/
theorem C5_amended_round_trip :
    (parse_query c5Db0 "c" "ADD DATA (name='John', age=30)" 100).map Prod.snd =
      .ok [[("_id", .s "1"), ("name", .s "John"), ("age", .s "30")]]
    ∧ (parse_query c5Db1 "c" "FETCH" 101).map Prod.snd = .ok [c5Row]
    ∧ dget c5Row "_id" = some (.s "1")
    ∧ dget c5Row "name" = some (.s "John")
    ∧ dget c5Row "age" = some (.s "30.0")
    ∧ (dget c5Row "created_at").isSome = true
    ∧ dget c5Row "updated_at" = none := by
  refine ⟨by decide, by decide, by decide, by decide, by decide, by decide, by decide⟩

def c6xRec : Rec := [("m", "5"), ("grade", "A"), ("_id", "1"), ("created_at", "50")]

def c6xColl : Collection :=
  { name := "c", schema := [], data := [("1", c6xRec)], data_loaded := true,
    indexes := [] }

def c6xDb : DB :=
  { collections := [("c", c6xColl)], cache := [], last_save_time := 0,
    save_interval := 1, storage := [] }

/-- C6 counterexample: a collection with one record (m = '5', grade = 'A')
contains no grade = 'Z' record, yet `AGGREGATE (m=$max) FILTER (grade='Z')`
returns [{m: 5.0}], not [{m: null}] — the parser's greedy aggregate-spec
group swallows the FILTER clause, so the aggregate runs over all records. -/
theorem C6_counterexample :
    (parse_query c6xDb "c" "AGGREGATE (m=$max) FILTER (grade='Z')" 60).map Prod.snd
      = .ok [[("m", Val.n 5)]]
    ∧ ¬ ([[("m", Val.n 5)]] = [[("m", Val.null)]]) := by
  refine ⟨by decide, by decide⟩

def c6eColl : Collection :=
  { name := "c", schema := [], data := [], data_loaded := true, indexes := [] }

def c6eDb : DB :=
  { collections := [("c", c6eColl)], cache := [], last_save_time := 0,
    save_interval := 1, storage := [] }

/-- C6 amended: (i) per output column, when a group's numeric-parseable
subset is empty, $avg/$min/$max yield null and $sum yields 0; (ii) $count
always equals the group size; (iii) however the FILTER clause of an
AGGREGATE query is swallowed into the aggregate-spec group at parse time
(conditions come back empty), so `AGGREGATE (m=$max) FILTER (grade='Z')`
aggregates over ALL records and returns [{m: null}] only when no live
record has a numeric `m` field — e.g. on an empty collection. -/
theorem C6_amended_aggregate_policy :
    (∀ (records : List Rec) (f op : String),
        aggOpAllowed op = true →
        reservedField (actualFieldOf f) = false →
        numericValues records (actualFieldOf f) = [] →
        aggColumn records f op =
          .ok (if op = "$count" then .i records.length
               else if op = "$sum" then .i 0 else .null))
    ∧ (∀ (records : List Rec) (f : String),
        reservedField (actualFieldOf f) = false →
        aggColumn records f "$count" = .ok (.i records.length))
    ∧ (parse_my_query "AGGREGATE (m=$max) FILTER (grade='Z')" =
        .ok { action := some .AGGREGATE, aggregate := [("m", "$max")] })
    ∧ ((parse_query c6eDb "c" "AGGREGATE (m=$max) FILTER (grade='Z')" 60).map Prod.snd
        = .ok [[("m", Val.null)]]) := by
  refine ⟨?_, ?_, by decide, by decide⟩
  · intro records f op hop hres hvals
    have hop2 : op = "$count" ∨ op = "$avg" ∨ op = "$sum" ∨ op = "$min" ∨ op = "$max" := by
      simp only [aggOpAllowed, Bool.or_eq_true, decide_eq_true_eq] at hop
      tauto
    rcases hop2 with h | h | h | h | h <;> subst h <;>
      simp [aggColumn, hres, hvals, aggOpAllowed] <;> rfl
  · intro records f hres
    simp only [aggColumn, aggOpAllowed, hres]
    rfl

/-- Concrete instantiation of C6 (amended): $max over an empty numeric
subset yields null, and $count counts all group records. -/
theorem C6_witness :
    aggColumn [c6xRec] "missing" "$max" = .ok .null
    ∧ aggColumn [c6xRec] "missing" "$count" = .ok (.i 1) := by
  constructor
  · exact C6_amended_aggregate_policy.1 [c6xRec] "missing" "$max"
      (by decide) (by decide) (by decide)
  · exact C6_amended_aggregate_policy.2.1 [c6xRec] "missing" (by decide)

def c8xL : Rec := [("name", "a"), ("_id", "1"), ("created_at", "0")]

def c8xR : Rec := [("title", "t"), ("_id", "1"), ("created_at", "0")]

def c8xDb : DB :=
  { collections :=
      [("s", { name := "s", schema := [], data := [("1", c8xL)],
               data_loaded := true, indexes := [] }),
       ("course", { name := "course", schema := [], data := [("1", c8xR)],
                    data_loaded := true, indexes := [] })]
    cache := [], last_save_time := 0, save_interval := 1, storage := [] }

/-- C8 counterexample: neither record carries its on-field (`k` on the left,
`k2` on the right), so no pair has string-equal raw values, yet the join
emits one merged row — Python's `record1.get(f1) == record2.get(f2)`
compares None == None as equal for a missing/missing pair. -/
theorem C8_counterexample :
    (join_query c8xDb "s" [("collection", "course"), ("on", "k=k2")] [] 5).map Prod.snd
      = .ok [[("name", .s "a"), ("_id", .s "1"), ("created_at", .s "0"),
              ("course_title", .s "t"), ("course__id", .s "1"),
              ("course_created_at", .s "0")]]
    ∧ dget c8xL "k" = none ∧ dget c8xR "k2" = none := by
  refine ⟨by decide, by decide, by decide⟩

/-- Reference definition following the amended claim's words: one merged row
per left/right pair whose on-field values are equal under Python get
semantics (equal strings, or both fields missing), with the left side
condition-and-TTL checked and the right side TTL checked only. -/
def joinSpecRows (dataL dataR : List (String × Rec)) (otherName field1 field2 : String)
    (conditions : Conds) (now : Q) : List Rec :=
  (dataL.filter (fun p => decide (match_query p.2 conditions true now = .ok true))).flatMap
    (fun p1 =>
      ((dataR.filter (fun p2 => decide (match_query p2.2 [] true now = .ok true))).filter
        (fun p2 => decide (dget p1.2 field1 = dget p2.2 field2))).map
        (fun p2 => join_query.mergeRight p1.2 p2.2 otherName))

theorem joinInner_spec (r1 : Rec) (otherName field1 field2 : String) (now : Q)
    (dataR : List (String × Rec))
    (hR : ∀ p ∈ dataR, ∃ b, match_query p.2 [] true now = .ok b) :
    join_query.joinInner r1 otherName field1 field2 now dataR =
      .ok (((dataR.filter (fun p2 => decide (match_query p2.2 [] true now = .ok true))).filter
          (fun p2 => decide (dget r1 field1 = dget p2.2 field2))).map
          (fun p2 => join_query.mergeRight r1 p2.2 otherName)) := by
  induction dataR with
  | nil => rfl
  | cons p t ih =>
    obtain ⟨b, hb⟩ := hR p (List.mem_cons_self _ _)
    have ht := ih (fun p2 hp2 => hR p2 (List.mem_cons_of_mem _ hp2))
    rcases p with ⟨k2, r2⟩
    simp only [join_query.joinInner, hb, except_bind_ok, ht, except_bind_ok]
    cases b with
    | false =>
      rw [if_neg (fun hx => by cases hx.1)]
      rw [List.filter_cons, if_neg (by simp [hb])]
      rfl
    | true =>
      rw [List.filter_cons, if_pos (by simp [hb] : decide
          (match_query r2 [] true now = Except.ok true) = true)]
      rw [List.filter_cons]
      by_cases heq : dget r1 field1 = dget r2 field2
      · rw [if_pos ⟨rfl, heq⟩, if_pos (by simp [heq] : decide
            (dget r1 field1 = dget r2 field2) = true)]
        rfl
      · rw [if_neg (fun hx => heq hx.2), if_neg (by simp [heq])]
        rfl

theorem joinScan_spec (dataL dataR : List (String × Rec))
    (otherName field1 field2 : String) (conditions : Conds) (now : Q)
    (hL : ∀ p ∈ dataL, ∃ b, match_query p.2 conditions true now = .ok b)
    (hR : ∀ p ∈ dataR, ∃ b, match_query p.2 [] true now = .ok b) :
    join_query.joinScan dataL dataR otherName field1 field2 conditions now =
      .ok (joinSpecRows dataL dataR otherName field1 field2 conditions now) := by
  induction dataL with
  | nil => rfl
  | cons p t ih =>
    obtain ⟨b, hb⟩ := hL p (List.mem_cons_self _ _)
    have ht := ih (fun p2 hp2 => hL p2 (List.mem_cons_of_mem _ hp2))
    rcases p with ⟨k1, r1⟩
    simp only [join_query.joinScan, hb, except_bind_ok, ht, except_bind_ok]
    unfold joinSpecRows
    cases b with
    | false =>
      rw [if_neg (fun hx => by cases hx)]
      rw [List.filter_cons, if_neg (by simp [hb])]
      simp only [except_pure_bind, except_bind_ok]
      rw [show (joinSpecRows t dataR otherName field1 field2 conditions now : List Rec) =
        (t.filter (fun p => decide (match_query p.2 conditions true now = .ok true))).flatMap
          (fun p1 =>
            ((dataR.filter (fun p2 => decide (match_query p2.2 [] true now = .ok true))).filter
              (fun p2 => decide (dget p1.2 field1 = dget p2.2 field2))).map
              (fun p2 => join_query.mergeRight p1.2 p2.2 otherName)) from rfl] at ht
      rfl
    | true =>
      rw [if_pos rfl]
      rw [joinInner_spec r1 otherName field1 field2 now dataR hR]
      simp only [except_bind_ok]
      rw [List.filter_cons, if_pos (by simp [hb] : decide
          (match_query r1 conditions true now = Except.ok true) = true)]
      rw [List.flatMap_cons]
      rfl

def c8s1 : Rec := [("name", "s1"), ("roll_no", "7"), ("_id", "1"), ("created_at", "0")]

def c8s2 : Rec := [("name", "s2"), ("roll_no", "8"), ("_id", "2"), ("created_at", "0")]

def c8s3 : Rec := [("name", "s3"), ("roll_no", "9"), ("_id", "3"), ("created_at", "0")]

def c8c1 : Rec := [("cname", "math"), ("student_id", "7"), ("_id", "1"), ("created_at", "0")]

def c8c2 : Rec := [("cname", "bio"), ("student_id", "99"), ("_id", "2"), ("created_at", "0")]

def c8CollS : Collection :=
  { name := "student", schema := [], data := [("1", c8s1), ("2", c8s2), ("3", c8s3)],
    data_loaded := true, indexes := [] }

def c8CollC : Collection :=
  { name := "course", schema := [], data := [("1", c8c1), ("2", c8c2)],
    data_loaded := true, indexes := [] }

def c8Db2 : DB :=
  { collections := [("student", c8CollS), ("course", c8CollC)], cache := [],
    last_save_time := 0, save_interval := 1, storage := [] }

def c8MergedRow : Row :=
  [("name", .s "s1"), ("roll_no", .s "7"), ("_id", .s "1"), ("created_at", .s "0"),
   ("course_cname", .s "math"), ("course_student_id", .s "7"),
   ("course__id", .s "1"), ("course_created_at", .s "0")]

/-- C8 amended: the join emits exactly one merged row per left/right pair
whose on-field values are equal under Python get semantics — equal string
values, or BOTH fields missing (None == None) — with the left record
TTL-and-condition checked and the right record TTL checked only; each merged
row is the left record overlaid with the right record's fields prefixed by
the other collection's name.  In particular joining student (3 records) to
course (2 records) with exactly one equal-keyed pair yields exactly 1 merged
row containing the left fields plus course_-prefixed right fields. -/
theorem C8_amended_join_shape :
    (∀ (dataL dataR : List (String × Rec)) (otherName field1 field2 : String)
        (conditions : Conds) (now : Q),
        (∀ p ∈ dataL, ∃ b, match_query p.2 conditions true now = .ok b) →
        (∀ p ∈ dataR, ∃ b, match_query p.2 [] true now = .ok b) →
        join_query.joinScan dataL dataR otherName field1 field2 conditions now =
          .ok (joinSpecRows dataL dataR otherName field1 field2 conditions now))
    ∧ ((join_query c8Db2 "student"
          [("collection", "course"), ("on", "roll_no=student_id")] [] 5).map
          (fun p => p.2.length) = .ok 1)
    ∧ ((join_query c8Db2 "student"
          [("collection", "course"), ("on", "roll_no=student_id")] [] 5).map
          Prod.snd = .ok [c8MergedRow]) := by
  refine ⟨?_, by decide, by decide⟩
  intro dataL dataR otherName field1 field2 conditions now hL hR
  exact joinScan_spec dataL dataR otherName field1 field2 conditions now hL hR

/-- Concrete instantiation of C8 (amended): the nested-loop scan over the
3 by 2 scenario equals the reference pair enumeration, which produces
exactly the single expected merged row. -/
theorem C8_witness :
    join_query.joinScan c8CollS.data c8CollC.data "course" "roll_no" "student_id" [] 5 =
      .ok (joinSpecRows c8CollS.data c8CollC.data "course" "roll_no" "student_id" [] 5)
    ∧ joinSpecRows c8CollS.data c8CollC.data "course" "roll_no" "student_id" [] 5 =
      [[("name", "s1"), ("roll_no", "7"), ("_id", "1"), ("created_at", "0"),
        ("course_cname", "math"), ("course_student_id", "7"),
        ("course__id", "1"), ("course_created_at", "0")]] := by
  constructor
  · exact C8_amended_join_shape.1 c8CollS.data c8CollC.data "course" "roll_no"
      "student_id" [] 5 (by decide) (by decide)
  · decide



theorem scanAll_sound (conds : Conds) (now : Q) (data : List (String × Rec))
    (rows : List Rec) (h : scanAll conds now data = .ok rows) :
    ∀ r ∈ rows, match_query r conds true now = .ok true := by
  induction data generalizing rows with
  | nil =>
    simp only [scanAll] at h
    cases h
    intro r hr
    cases hr
  | cons p t ih =>
    rcases p with ⟨k, rec⟩
    cases hm : match_query rec conds true now with
    | error e =>
      simp only [scanAll, hm] at h
      cases h
    | ok b =>
      simp only [scanAll, hm] at h
      cases hs : scanAll conds now t with
      | error e => rw [hs, except_bind_error] at h; cases h
      | ok rest =>
        rw [hs, except_bind_ok] at h
        cases b with
        | false =>
          simp only [Bool.false_eq_true, reduceIte, pure, Except.pure] at h
          cases h
          exact ih _ hs
        | true =>
          simp only [reduceIte, pure, Except.pure] at h
          cases h
          intro r hr
          rcases List.mem_cons.mp hr with h2 | h2
          · subst h2; exact hm
          · exact ih _ hs r h2

theorem lookupIds_sound (data : List (String × Rec)) (conds : Conds) (now : Q)
    (ids : List String) (rows : List Rec)
    (h : lookupIds data conds now ids = .ok rows) :
    ∀ r ∈ rows, match_query r conds true now = .ok true := by
  induction ids generalizing rows with
  | nil =>
    simp only [lookupIds] at h
    cases h
    intro r hr
    cases hr
  | cons id_ t ih =>
    simp only [lookupIds] at h
    cases hs : lookupIds data conds now t with
    | error e => rw [hs, except_bind_error] at h; cases h
    | ok rest =>
      rw [hs, except_bind_ok] at h
      cases hd : dget data id_ with
      | none =>
        simp only [hd, pure, Except.pure] at h
        cases h
        exact ih _ hs
      | some rec =>
        simp only [hd] at h
        by_cases hre : rec = []
        · simp only [hre, reduceIte, pure, Except.pure] at h
          cases h
          exact ih _ hs
        · simp only [hre, reduceIte] at h
          cases hm : match_query rec conds true now with
          | error e => rw [hm, except_bind_error] at h; cases h
          | ok b =>
            rw [hm, except_bind_ok] at h
            cases b with
            | false =>
              simp only [Bool.false_eq_true, reduceIte, pure, Except.pure] at h
              cases h
              exact ih _ hs
            | true =>
              simp only [reduceIte, pure, Except.pure] at h
              cases h
              intro r hr
              rcases List.mem_cons.mp hr with h2 | h2
              · subst h2; exact hm
              · exact ih _ hs r h2

theorem fullScanSelect_sound (db db2 : DB) (cname : String) (conds : Conds)
    (now : Q) (rows : List Rec)
    (h : fullScanSelect db cname conds now = .ok (db2, rows)) :
    ∀ r ∈ rows, match_query r conds true now = .ok true := by
  simp only [fullScanSelect] at h
  cases hl : load_data db cname with
  | error e => rw [hl, except_bind_error] at h; cases h
  | ok dbl =>
    rw [hl, except_bind_ok] at h
    cases hg : getColl dbl cname with
    | error e => rw [hg, except_bind_error] at h; cases h
    | ok c =>
      rw [hg, except_bind_ok] at h
      cases hs : scanAll conds now c.data with
      | error e => rw [hs, except_bind_error] at h; cases h
      | ok rows0 =>
        rw [hs, except_bind_ok] at h
        simp only [pure, Except.pure] at h
        cases h
        exact scanAll_sound conds now c.data _ hs

theorem lookupPath_sound (db db2 : DB) (cname : String) (conds : Conds)
    (now : Q) (ids : List String) (rows : List Rec)
    (h : (do
        let db ← load_data db cname
        let c ← getColl db cname
        let rows ← lookupIds c.data conds now ids
        pure (db, rows) : Except Err (DB × List Rec)) = .ok (db2, rows)) :
    ∀ r ∈ rows, match_query r conds true now = .ok true := by
  cases hl : load_data db cname with
  | error e => rw [hl, except_bind_error] at h; cases h
  | ok dbl =>
    rw [hl, except_bind_ok] at h
    cases hg : getColl dbl cname with
    | error e => rw [hg, except_bind_error] at h; cases h
    | ok c =>
      rw [hg, except_bind_ok] at h
      cases hs : lookupIds c.data conds now ids with
      | error e => rw [hs, except_bind_error] at h; cases h
      | ok rows0 =>
        rw [hs, except_bind_ok] at h
        simp only [pure, Except.pure] at h
        cases h
        exact lookupIds_sound c.data conds now ids _ hs

theorem select_exec_sound (db db2 : DB) (cname : String) (q : Query) (now : Q)
    (rows : List Rec) (h : select_exec db cname q now = .ok (db2, rows)) :
    ∀ r ∈ rows, match_query r q.conditions true now = .ok true := by
  simp only [select_exec] at h
  cases hf : q.filter with
  | none =>
    rw [hf] at h
    exact fullScanSelect_sound db db2 cname q.conditions now rows h
  | some f =>
    simp only [hf] at h
    by_cases hft : f.ftype = "compare"
    · simp only [hft, reduceIte] at h
      by_cases hlen : q.conditions.length > 1
      · simp only [hlen, reduceIte] at h
        cases hg : getColl db cname with
        | error e => rw [hg, except_bind_error] at h; cases h
        | ok c0 =>
          rw [hg, except_bind_ok] at h
          cases hi : dget c0.indexes
              (String.intercalate "," (sortStrs (q.conditions.map Prod.fst))) with
          | none =>
            simp only [hi] at h
            exact fullScanSelect_sound db db2 cname q.conditions now rows h
          | some idx =>
            simp only [hi] at h
            cases hcv : dget idx (String.intercalate "|"
                ((sortStrs (q.conditions.map Prod.fst)).map
                  (fun fld => condValPyStr ((dget q.conditions fld).getD (.str ""))))) with
            | none =>
              simp only [hcv] at h
              exact fullScanSelect_sound db db2 cname q.conditions now rows h
            | some ids =>
              simp only [hcv] at h
              exact lookupPath_sound db db2 cname q.conditions now ids rows h
      · simp only [hlen, reduceIte] at h
        cases hg : getColl db cname with
        | error e => rw [hg, except_bind_error] at h; cases h
        | ok c0 =>
          rw [hg, except_bind_ok] at h
          cases hi : dget c0.indexes f.field with
          | none =>
            simp only [hi] at h
            exact fullScanSelect_sound db db2 cname q.conditions now rows h
          | some idx =>
            simp only [hi] at h
            by_cases hop : f.operator = "="
            · simp only [hop, reduceIte] at h
              cases hv : f.value with
              | num qv =>
                simp only [hv] at h
                exact fullScanSelect_sound db db2 cname q.conditions now rows h
              | str sv =>
                simp only [hv] at h
                cases hids : dget idx sv with
                | none =>
                  simp only [hids] at h
                  exact fullScanSelect_sound db db2 cname q.conditions now rows h
                | some ids =>
                  simp only [hids] at h
                  exact lookupPath_sound db db2 cname q.conditions now ids rows h
            · simp only [hop, reduceIte] at h
              exact fullScanSelect_sound db db2 cname q.conditions now rows h
    · simp only [hft, reduceIte] at h
      exact fullScanSelect_sound db db2 cname q.conditions now rows h

theorem parse_query_cache_miss (db : DB) (cname query_str : String) (now : Q)
    (hne : ¬ stripPy query_str = "")
    (hmiss : dget db.cache (cname ++ ":" ++ query_str) = none) :
    parse_query db cname query_str now = parse_query_run db cname query_str now := by
  simp only [parse_query, hne, reduceIte, hmiss]

def c2FetchQuery : Query :=
  { action := some .SELECT, conditions := [("age", CondVal.numv 30)],
    filter := some { ftype := "compare", field := "age", operator := "=",
                     value := FVal.num 30 } }

theorem c2_parse_fetch : parse_my_query "FETCH FILTER (age=30)" = .ok c2FetchQuery := by
  decide

theorem c2_run_fetch (db : DB) (now : Q) :
    parse_query_run db "c" "FETCH FILTER (age=30)" now =
      (select_exec db "c" c2FetchQuery now >>= fun p =>
        let rows := p.2.map recToRow
        pure ({ p.1 with cache := dset p.1.cache "c:FETCH FILTER (age=30)" rows },
              rows)) := rfl

theorem c2_select_fetch (db : DB) (now : Q) :
    select_exec db "c" c2FetchQuery now =
      (getColl db "c" >>= fun c0 =>
        match dget c0.indexes "age" with
        | none => fullScanSelect db "c" [("age", CondVal.numv 30)] now
        | some _ => fullScanSelect db "c" [("age", CondVal.numv 30)] now) := rfl

theorem fullScanSelect_eval (db : DB) (c : Collection)
    (hc : dget db.collections "c" = some c) (conds : Conds) (now : Q) :
    (fullScanSelect db "c" conds now).map Prod.snd =
      scanAll conds now
        (if c.data_loaded then c.data else (dget db.storage "c").getD []) := by
  cases hload : c.data_loaded with
  | true =>
    have hl : load_data db "c" = .ok db := by
      simp only [load_data, getColl, hc, except_bind_ok, hload, reduceIte]
      rfl
    simp only [fullScanSelect, hl, except_bind_ok, getColl, hc, except_bind_ok, reduceIte]
    cases hs : scanAll conds now c.data with
    | error e => rfl
    | ok rows => rfl
  | false =>
    have hl : load_data db "c" = .ok (putColl db "c"
        { c with data := (dget db.storage "c").getD [], data_loaded := true }) := by
      simp only [load_data, getColl, hc, except_bind_ok, hload, Bool.false_eq_true,
        reduceIte]
      rfl
    have hg : getColl (putColl db "c"
        { c with data := (dget db.storage "c").getD [], data_loaded := true }) "c" =
        .ok { c with data := (dget db.storage "c").getD [], data_loaded := true } := by
      simp only [getColl, putColl, dget_dset_self]
    simp only [fullScanSelect, hl, except_bind_ok, hg, except_bind_ok,
      Bool.false_eq_true, reduceIte]
    cases hs : scanAll conds now ((dget db.storage "c").getD []) with
    | error e => rfl
    | ok rows => rfl

theorem c2_fetch_snd (db : DB) (c : Collection)
    (hc : dget db.collections "c" = some c)
    (hmiss : dget db.cache ("c" ++ ":" ++ "FETCH FILTER (age=30)") = none) (now : Q) :
    (parse_query db "c" "FETCH FILTER (age=30)" now).map Prod.snd =
      (scanAll [("age", CondVal.numv 30)] now
        (if c.data_loaded then c.data else (dget db.storage "c").getD [])).map
        (fun rows => rows.map recToRow) := by
  rw [parse_query_cache_miss db "c" "FETCH FILTER (age=30)" now (by decide) hmiss]
  rw [c2_run_fetch, c2_select_fetch]
  have hsel : (getColl db "c" >>= fun c0 =>
      match dget c0.indexes "age" with
      | none => fullScanSelect db "c" [("age", CondVal.numv 30)] now
      | some _ => fullScanSelect db "c" [("age", CondVal.numv 30)] now) =
      fullScanSelect db "c" [("age", CondVal.numv 30)] now := by
    rw [getColl, hc]
    show ((Except.ok c : Except Err Collection) >>= fun c0 => _) = _
    rw [except_bind_ok]
    cases dget c.indexes "age" <;> rfl
  rw [hsel]
  have heval := fullScanSelect_eval db c hc [("age", CondVal.numv 30)] now
  cases hfs : fullScanSelect db "c" [("age", CondVal.numv 30)] now with
  | error e =>
    rw [hfs] at heval
    rw [except_bind_error]
    rw [← heval]
    rfl
  | ok p =>
    rw [hfs] at heval
    rw [except_bind_ok]
    rw [← heval]
    rfl

def c2MkDb (c : Collection) (st : List (String × List (String × Rec)))
    (lst si : Q) : DB :=
  { collections := [("c", c)], cache := [], last_save_time := lst,
    save_interval := si, storage := st }

def c2MidDb (nm : String) (sch : List String) (data : List (String × Rec))
    (idxs : Indexes) (st : List (String × List (String × Rec))) (lst si : Q) : DB :=
  { collections := [("c", ⟨nm, sch, data, true,
      dset idxs "age" (buildIndexScan ["age"] data [])⟩)]
    cache := [], last_save_time := lst, save_interval := si, storage := st }

def c2AfterIndexDb (nm : String) (sch : List String) (D : List (String × Rec))
    (idxs : Indexes) (st : List (String × List (String × Rec)))
    (lst si now1 : Q) : DB :=
  { debounce_save (c2MidDb nm sch D idxs st lst si) now1 with
    cache := dset (debounce_save (c2MidDb nm sch D idxs st lst si) now1).cache
      ("c" ++ ":" ++ "INDEX FIELD age") [[("indexed", Val.s "age")]] }

theorem c2_index_exec_loaded (nm : String) (sch : List String)
    (data : List (String × Rec)) (idxs : Indexes)
    (st : List (String × List (String × Rec))) (lst si now1 : Q) :
    parse_query (c2MkDb ⟨nm, sch, data, true, idxs⟩ st lst si) "c"
        "INDEX FIELD age" now1 =
      .ok (c2AfterIndexDb nm sch data idxs st lst si now1,
           [[("indexed", Val.s "age")]]) := rfl

theorem c2_index_exec_unloaded (nm : String) (sch : List String)
    (data : List (String × Rec)) (idxs : Indexes)
    (st : List (String × List (String × Rec))) (lst si now1 : Q) :
    parse_query (c2MkDb ⟨nm, sch, data, false, idxs⟩ st lst si) "c"
        "INDEX FIELD age" now1 =
      .ok (c2AfterIndexDb nm sch ((dget st "c").getD []) idxs st lst si now1,
           [[("indexed", Val.s "age")]]) := rfl

theorem debounce_save_cache_nil (db : DB) (now : Q) (h : db.cache = []) :
    (debounce_save db now).cache = [] := by
  simp only [debounce_save]
  split
  · rfl
  · exact h

theorem c2AfterIndexDb_collections (nm : String) (sch : List String)
    (D : List (String × Rec)) (idxs : Indexes)
    (st : List (String × List (String × Rec))) (lst si now1 : Q) :
    dget (c2AfterIndexDb nm sch D idxs st lst si now1).collections "c" =
      some ⟨nm, sch, D, true, dset idxs "age" (buildIndexScan ["age"] D [])⟩ := by
  show dget (debounce_save (c2MidDb nm sch D idxs st lst si) now1).collections "c" = _
  rw [debounce_save_collections]
  rfl

theorem c2AfterIndexDb_cache_miss (nm : String) (sch : List String)
    (D : List (String × Rec)) (idxs : Indexes)
    (st : List (String × List (String × Rec))) (lst si now1 : Q) :
    dget (c2AfterIndexDb nm sch D idxs st lst si now1).cache
      ("c" ++ ":" ++ "FETCH FILTER (age=30)") = none := by
  show dget (dset (debounce_save (c2MidDb nm sch D idxs st lst si) now1).cache
    ("c" ++ ":" ++ "INDEX FIELD age") [[("indexed", Val.s "age")]])
    ("c" ++ ":" ++ "FETCH FILTER (age=30)") = none
  rw [debounce_save_cache_nil _ now1 rfl]
  simp [dset, dget, show ¬ (("c" ++ ":" ++ "INDEX FIELD age" : String) =
    "c" ++ ":" ++ "FETCH FILTER (age=30)") from by decide]

/-- C2: index/scan equivalence.  (i) For every collection state, executing
`INDEX FIELD age` and then `FETCH FILTER (age=30)` returns exactly the rows
that the same FETCH returns on the state with no index present (the parsed
numeric filter value is never found among the string keys of an index, so
both runs resolve by full scan of the same record map); (ii) in general,
every row a Select returns — index-assisted or not — has passed match_query
(TTL and residual conditions) for the query's condition set. -/
theorem C2_index_scan_equivalence :
    (∀ (c : Collection) (st : List (String × List (String × Rec)))
        (lst si now1 now2 : Q) (dbA : DB) (rs1 : List Row),
        parse_query (c2MkDb c st lst si) "c" "INDEX FIELD age" now1 = .ok (dbA, rs1) →
        (parse_query dbA "c" "FETCH FILTER (age=30)" now2).map Prod.snd =
        (parse_query (c2MkDb { c with indexes := [] } st lst si) "c"
            "FETCH FILTER (age=30)" now2).map Prod.snd)
    ∧ (∀ (db db2 : DB) (cname : String) (q : Query) (now : Q) (rows : List Rec),
        select_exec db cname q now = .ok (db2, rows) →
        ∀ r ∈ rows, match_query r q.conditions true now = .ok true) := by
  constructor
  · intro c st lst si now1 now2 dbA rs1 hA
    obtain ⟨nm, sch, data, loaded, idxs⟩ := c
    cases loaded with
    | true =>
      rw [c2_index_exec_loaded nm sch data idxs st lst si now1] at hA
      have hdb : c2AfterIndexDb nm sch data idxs st lst si now1 = dbA :=
        congrArg Prod.fst (Except.ok.inj hA)
      rw [← hdb]
      rw [c2_fetch_snd (c2AfterIndexDb nm sch data idxs st lst si now1)
          ⟨nm, sch, data, true, dset idxs "age" (buildIndexScan ["age"] data [])⟩
          (c2AfterIndexDb_collections nm sch data idxs st lst si now1)
          (c2AfterIndexDb_cache_miss nm sch data idxs st lst si now1) now2]
      show _ = (parse_query (c2MkDb ⟨nm, sch, data, true, []⟩ st lst si) "c"
          "FETCH FILTER (age=30)" now2).map Prod.snd
      rw [c2_fetch_snd (c2MkDb ⟨nm, sch, data, true, []⟩ st lst si)
          ⟨nm, sch, data, true, []⟩ rfl rfl now2]
      rfl
    | false =>
      rw [c2_index_exec_unloaded nm sch data idxs st lst si now1] at hA
      have hdb : c2AfterIndexDb nm sch ((dget st "c").getD []) idxs st lst si now1 = dbA :=
        congrArg Prod.fst (Except.ok.inj hA)
      rw [← hdb]
      rw [c2_fetch_snd
          (c2AfterIndexDb nm sch ((dget st "c").getD []) idxs st lst si now1)
          ⟨nm, sch, ((dget st "c").getD []), true,
            dset idxs "age" (buildIndexScan ["age"] ((dget st "c").getD []) [])⟩
          (c2AfterIndexDb_collections nm sch ((dget st "c").getD []) idxs st lst si now1)
          (c2AfterIndexDb_cache_miss nm sch ((dget st "c").getD []) idxs st lst si now1)
          now2]
      show _ = (parse_query (c2MkDb ⟨nm, sch, data, false, []⟩ st lst si) "c"
          "FETCH FILTER (age=30)" now2).map Prod.snd
      rw [c2_fetch_snd (c2MkDb ⟨nm, sch, data, false, []⟩ st lst si)
          ⟨nm, sch, data, false, []⟩ rfl rfl now2]
      rfl
  · intro db db2 cname q now rows h
    exact select_exec_sound db db2 cname q now rows h

def c2wRec0 : Rec := [("_id", "1"), ("name", "John")]

def c2wData : List (String × Rec) := [("1", c2wRec0)]

def c2wDb : DB := c2MkDb ⟨"c", [], c2wData, true, []⟩ [] 0 0

theorem C2_witness :
    ((parse_query (c2AfterIndexDb "c" [] c2wData [] [] 0 0 1) "c"
        "FETCH FILTER (age=30)" 2).map Prod.snd =
      (parse_query (c2MkDb ⟨"c", [], c2wData, true, []⟩ [] 0 0) "c"
        "FETCH FILTER (age=30)" 2).map Prod.snd)
    ∧ match_query c2wRec0 [] true 5 = .ok true :=
  ⟨C2_index_scan_equivalence.1 ⟨"c", [], c2wData, true, []⟩ [] 0 0 1 2
      (c2AfterIndexDb "c" [] c2wData [] [] 0 0 1) [[("indexed", Val.s "age")]]
      (c2_index_exec_loaded "c" [] c2wData [] [] 0 0 1),
   C2_index_scan_equivalence.2 c2wDb c2wDb "c" {} 5 [c2wRec0] rfl c2wRec0
      (List.mem_cons_self _ _)⟩
